import Mathlib

/-! # Robotat communications module (`robotat.c`, `robotat.h`)

A shallow embedding of the frame parser `data_parsing_mqtt`, of the broker
event handler `mqtt_event_handler` and of the link event handler
`wifi_event_handler`, followed by the properties checked against them.

Conventions of the embedding.

* The file-scope variables of `robotat.c` are the fields of `State`; the
  8-bit ones are natural numbers kept below 256 by an explicit `% 256`.
* The services the module calls (non-volatile storage, the broker client,
  the link driver, the event group) are part of `State` too: the persisted
  key/value pairs, the list of publish requests, the number of connection
  requests and the two event bits.
* The arrays `data_copy` and `data_mqtt` keep their declared sizes. A store
  past the end of one of them has no defined effect in C; the embedding
  records it in the field `out_of_bounds` and states nothing about the
  variables of the program after it.
* `float` and the C library scanner `strtof` are not defined by the
  repository: the embedding takes them as a parameter (`FloatOps`), so every
  universally quantified result holds for whatever the scanner returns.
  `decimal` is one concrete instance, used to run the code on frame texts;
  `binary32_int` is another, with the rounding of `float` on integer text.
-/

namespace Robotat

/-! ## Constants of `robotat.h` -/

def WIFI_MAX_RETRY : Nat := 10
def MQTT_IDENTIFIER : String := "ESP32_Drone"
def MAX_STRING_LENGTH_MQTT : Nat := 500
def MAX_STRING_LENGTH_OK_MESSAGE : Nat := 50
def MAX_DATA_LENGTH_MQTT : Nat := 55

/-- The enumeration `robotat_state_t` of `robotat.h`. -/
inductive robotat_state_t where
  | ROBOTAT_CONNECTING_MQTT
  | ROBOTAT_CONNECTION_ERROR_WIFI
  | ROBOTAT_CONNECTION_ERROR_MQTT
  | ROBOTAT_CONNECTION_SUCCESS_WIFI
  | ROBOTAT_CONNECTION_SUCCESS_MQTT
  | ROBOTAT_DISCONNECTED_MQTT
  | ROBOTAT_SUBSCRIBED_TO_TOPIC
  | ROBOTAT_MESSAGE_PUBLISHED
  | ROBOTAT_DATA_RECEIVED
  deriving DecidableEq, Repr

/-! ## Services outside the repository -/

/-- The `float` type with the three operations the parser applies to it:
`strtof` on the NUL-terminated text at a pointer (the value and the number of
characters consumed, i.e. how far the end pointer moves), the cast
`(int) x`, and the cast `(float) u` of an 8-bit value. -/
structure FloatOps (F : Type) where
  strtof : List Char → F × Nat
  to_int : F → Int
  of_uint8 : Nat → F

/-- The two keys the module keeps in the storage namespace "storage";
`none` is a key that was never written. -/
structure Nvs where
  id_use_flag : Option Nat
  chosen_mqtt_id : Option Nat
  deriving DecidableEq, Repr

/-- Which storage calls of one run of `data_parsing_mqtt` return `ESP_OK`
(`true`) and which report an error, in the order of the calls. -/
structure NvsOutcome where
  open_read : Bool
  get_flag : Bool
  get_id : Bool
  open_write : Bool
  set_flag : Bool
  set_id : Bool
  commit : Bool
  deriving DecidableEq, Repr

/-- Every storage call succeeds. -/
def NvsOutcome.ok : NvsOutcome :=
  ⟨true, true, true, true, true, true, true⟩

/-! ## Program state -/

/-- The file-scope variables of `robotat.c` and the state of the services
it drives. `data_mqtt_writes` is a ghost field: the indices of `data_mqtt`
the code has assigned, in order, including indices outside the array.
`subscribe_requests` lists the calls of `esp_mqtt_client_subscribe` (topic
and quality of service). `out_of_bounds` is set by the first store that
leaves `data_copy` or `data_mqtt`: in C such a store lands in whatever
objects follow the array, so from then on the other fields no longer
describe the variables of the program; what was published or persisted
before that store stands. -/
structure State (F : Type) where
  str_len : Nat
  robotat_id_use : Nat
  robotat_id : Nat
  chosen_robotat_id : Nat
  robotat_id_use_flag : Nat
  i : Nat
  s_retry_num : Nat
  data_ptr : Nat
  data_copy : List Char
  data_mqtt : List F
  mes_ok_id : String
  device_status : robotat_state_t
  storage_ok : Bool
  flash : Nvs
  published : List (String × String)
  data_mqtt_writes : List Nat
  wifi_connect_calls : Nat
  wifi_connected_bit : Bool
  wifi_fail_bit : Bool
  subscribe_requests : List (String × Nat)
  out_of_bounds : Bool

/-- The NUL character. -/
def NUL : Char := Char.ofNat 0

/-- State at power-up with the given storage contents: every static variable
is zero-initialised. -/
def State.boot {F : Type} (ops : FloatOps F) (flash : Nvs) : State F :=
  { str_len := 0, robotat_id_use := 0, robotat_id := 0, chosen_robotat_id := 0,
    robotat_id_use_flag := 0, i := 0, s_retry_num := 0, data_ptr := 0,
    data_copy := List.replicate MAX_STRING_LENGTH_MQTT NUL,
    data_mqtt := List.replicate MAX_DATA_LENGTH_MQTT (ops.of_uint8 0),
    mes_ok_id := "",
    device_status := robotat_state_t.ROBOTAT_CONNECTING_MQTT,
    storage_ok := true, flash := flash, published := [],
    data_mqtt_writes := [], wifi_connect_calls := 0,
    wifi_connected_bit := false, wifi_fail_bit := false, subscribe_requests := [],
    out_of_bounds := false }

/-! ## `data_parsing_mqtt` -/

/-- The call `strncpy(dst, src, n)` as a function of the memory that starts
at `dst`: the first `n` characters of `src` up to its first NUL, padded with
NUL to `n` characters, over the first `n` positions; the positions from `n`
on are kept. The end of the list `src` counts as a NUL. The result is longer
than `dst` when `n` is: the positions beyond the length of `dst` belong to
the objects that follow it (see `decode_header`). -/
def strncpy (dst src : List Char) (n : Nat) : List Char :=
  let body := (src.takeWhile (fun c => c != NUL)).take n
  body ++ List.replicate (n - body.length) NUL ++ dst.drop n

/-- The NUL-terminated text found at offset `off` of a buffer. -/
def c_string (buf : List Char) (off : Nat) : List Char :=
  (buf.drop off).takeWhile (fun c => c != NUL)

/-- Conversion of an `int` to `uint8_t`. -/
def to_uint8 (z : Int) : Nat := (z % 256).toNat

/-- One call `strtof(p, &data_ptr)` with `p` at offset `off` of `data_copy`:
the value, and the state with `data_ptr` moved behind the text consumed. -/
def scan {F : Type} (ops : FloatOps F) (s : State F) (off : Nat) : F × State F :=
  let r := ops.strtof (c_string s.data_copy off)
  (r.1, { s with data_ptr := off + r.2 })

/-- Lines 92-97: copy the body, scan the three header fields into the 8-bit
variables, print the candidate id into `mes_ok_id`. The copy has no bound
but `mes_len`: `data_copy` keeps its 500 positions, and a count above 500
writes past them, which sets `out_of_bounds`. -/
def decode_header {F : Type} (ops : FloatOps F) (s : State F)
    (mes_data : List Char) (mes_len : Nat) : State F :=
  let s := { s with
    data_copy := (strncpy s.data_copy mes_data mes_len).take MAX_STRING_LENGTH_MQTT,
    out_of_bounds := s.out_of_bounds || decide (MAX_STRING_LENGTH_MQTT < mes_len) }
  let r := scan ops s 0
  let s := { r.2 with str_len := to_uint8 (ops.to_int r.1) }
  let r := scan ops s s.data_ptr
  let s := { r.2 with robotat_id_use := to_uint8 (ops.to_int r.1) }
  let r := scan ops s s.data_ptr
  let s := { r.2 with robotat_id := to_uint8 (ops.to_int r.1) }
  { s with mes_ok_id := Nat.repr s.robotat_id }

/-- The call `nvs_get_u8`: on success the stored value; on an error (bad handle,
failing medium, key never written) the output variable keeps its value. -/
def nvs_get_u8 (succeeds : Bool) (stored : Option Nat) (out : Nat) : Bool × Nat :=
  match succeeds, stored with
  | true, some v => (true, v)
  | _, _ => (false, out)

/-- Lines 99-102: open the namespace and read the two keys. -/
def read_record {F : Type} (o : NvsOutcome) (s : State F) : State F :=
  let r1 := nvs_get_u8 (o.open_read && o.get_flag) s.flash.id_use_flag s.robotat_id_use_flag
  let r2 := nvs_get_u8 (o.open_read && o.get_id) s.flash.chosen_mqtt_id s.chosen_robotat_id
  { s with robotat_id_use_flag := r1.2, chosen_robotat_id := r2.2, storage_ok := r2.1 }

/-- Lines 113-117: open, set the two keys, commit. A set that succeeds is
staged on the handle; a successful commit makes the staged keys the
persisted ones. -/
def write_record {F : Type} (o : NvsOutcome) (s : State F) : State F :=
  let staged : Nvs :=
    { id_use_flag :=
        if o.open_write && o.set_flag then some s.robotat_id_use_flag
        else s.flash.id_use_flag,
      chosen_mqtt_id :=
        if o.open_write && o.set_id then some s.chosen_robotat_id
        else s.flash.chosen_mqtt_id }
  if o.open_write && o.commit then { s with flash := staged, storage_ok := true }
  else { s with storage_ok := false }

/-- The condition of line 104. -/
def claim_cond {F : Type} (s : State F) : Bool :=
  s.robotat_id_use == 0 && s.robotat_id_use_flag == 0

/-- Lines 104-118: the claim step. -/
def claim_step {F : Type} (ops : FloatOps F) (o : NvsOutcome) (s : State F) : State F :=
  if claim_cond s then
    let s := { s with robotat_id_use_flag := 1 }
    let s := { s with mes_ok_id := s.mes_ok_id ++ " " }
    let s := { s with mes_ok_id := s.mes_ok_id ++ MQTT_IDENTIFIER }
    let s := { s with chosen_robotat_id := s.robotat_id }
    let s := { s with data_mqtt := s.data_mqtt.set 0 (ops.of_uint8 s.chosen_robotat_id),
                      data_mqtt_writes := s.data_mqtt_writes ++ [0] }
    let s := { s with published := s.published ++ [("Used_IDs", s.mes_ok_id)] }
    write_record o s
  else s

/-- The condition of line 120. -/
def addressed_cond {F : Type} (s : State F) : Bool :=
  s.robotat_id == s.chosen_robotat_id && s.robotat_id_use_flag == 1

/-- One iteration of the loop of lines 128-132: the assignment
`data_mqtt[i] = strtof(data_ptr, &data_ptr)` followed by `++i` on the 8-bit
counter. The store has no bound: at an index of 55 or more it lands outside
`data_mqtt`, which sets `out_of_bounds` (the 55 slots themselves are not
touched by it). Every store is recorded in `data_mqtt_writes`. -/
def fill_body {F : Type} (ops : FloatOps F) (s : State F) : State F :=
  let r := scan ops s s.data_ptr
  let s := { r.2 with data_mqtt := r.2.data_mqtt.set r.2.i r.1,
                      data_mqtt_writes := r.2.data_mqtt_writes ++ [r.2.i],
                      out_of_bounds :=
                        r.2.out_of_bounds || decide (MAX_DATA_LENGTH_MQTT ≤ r.2.i) }
  { s with i := (s.i + 1) % 256 }

/-- The loop of lines 128-132, entered with `i` already set; `fuel` bounds
the number of iterations. The test compares `i` with `str_len - 2` as
`int`s. -/
def fill_loop {F : Type} (ops : FloatOps F) : Nat → State F → State F
  | 0, s => s
  | fuel + 1, s =>
    if (s.i : Int) < (s.str_len : Int) - 2 then fill_loop ops fuel (fill_body ops s)
    else s

/-- Lines 120-133: the payload fill. `i` and `str_len` are 8-bit, so 256
iterations are never reached (`fill_loop_exit`). -/
def fill_step {F : Type} (ops : FloatOps F) (s : State F) : State F :=
  if addressed_cond s then fill_loop ops 256 { s with i := 1 } else s

/-- The function `data_parsing_mqtt` (the topic arguments are not used by
the C code). -/
def data_parsing_mqtt {F : Type} (ops : FloatOps F) (o : NvsOutcome) (s : State F)
    (mes_data : List Char) (mes_len : Nat) : State F :=
  fill_step ops (claim_step ops o (read_record o (decode_header ops s mes_data mes_len)))

/-! ## A concrete scanner for decimal text -/

/-- The characters `isspace` accepts. -/
def is_space (c : Char) : Bool :=
  c.toNat == 32 || (9 ≤ c.toNat && c.toNat ≤ 13)

/-- The characters `0` to `9`. -/
def is_digit (c : Char) : Bool := 48 ≤ c.toNat && c.toNat ≤ 57

/-- The number written by a list of digits. -/
def digits_value (ds : List Char) : Nat :=
  ds.foldl (fun acc c => 10 * acc + (c.toNat - 48)) 0

/-- An exact decimal value: `mant / 10 ^ scale`, negated when `neg`. -/
structure Dec where
  neg : Bool
  mant : Nat
  scale : Nat
  deriving DecidableEq, Repr

/-- Drop trailing zeros of the fraction, so that equal values are equal
records (`1.0` and `1` are both `⟨false, 1, 0⟩`). -/
def Dec.normalize : Nat → Nat → Nat × Nat
  | m, 0 => (m, 0)
  | m, k + 1 => if m % 10 = 0 then Dec.normalize (m / 10) k else (m, k + 1)

/-- The scanner `strtof` on plain decimal text (blanks, an optional sign,
digits with an optional fraction), returning the exact decimal value. With
no digit at the start nothing is consumed and the value is 0. Exponents,
hexadecimal text, infinities and the rounding to `float` are outside this
instance. -/
def strtof_decimal (t : List Char) : Dec × Nat :=
  let ws := t.takeWhile is_space
  let t1 := t.drop ws.length
  let sign : Bool × Nat :=
    match t1 with
    | c :: _ => if c.toNat == 45 then (true, 1) else if c.toNat == 43 then (false, 1) else (false, 0)
    | [] => (false, 0)
  let t2 := t1.drop sign.2
  let ip := t2.takeWhile is_digit
  let t3 := t2.drop ip.length
  let frac : List Char × Nat :=
    match t3 with
    | c :: r => if c.toNat == 46 then (r.takeWhile is_digit, 1) else ([], 0)
    | [] => ([], 0)
  if ip.length + frac.1.length = 0 then (⟨false, 0, 0⟩, 0)
  else
    let n := Dec.normalize (digits_value (ip ++ frac.1)) frac.1.length
    (⟨sign.1, n.1, n.2⟩, ws.length + sign.2 + ip.length + frac.2 + frac.1.length)

/-- The cast `(int) x` on exact values: truncation towards zero. -/
def trunc_int (d : Dec) : Int :=
  if d.neg then -((d.mant / 10 ^ d.scale : Nat) : Int) else ((d.mant / 10 ^ d.scale : Nat) : Int)

/-- An instance of `FloatOps` on exact decimal values. -/
def decimal : FloatOps Dec :=
  { strtof := strtof_decimal, to_int := trunc_int, of_uint8 := fun u => ⟨false, u, 0⟩ }

/-! ## A scanner with the rounding of `float`, for integer text -/

/-- One inbound message as `data_parsing_mqtt` receives it, with the outcome
of the storage calls made while it is parsed. -/
structure Frame where
  outcome : NvsOutcome
  mes_data : List Char
  mes_len : Nat

/-- Parse the frames of a list one after the other. -/
def parse_frames {F : Type} (ops : FloatOps F) (s : State F) (fs : List Frame) : State F :=
  fs.foldl (fun st f => data_parsing_mqtt ops f.outcome st f.mes_data f.mes_len) s

/-! ## Payload tokens -/

/-- Offset reached after `j` successive calls of the scanner on the buffer
`buf`, starting at offset `p`. -/
def token_ptr {F : Type} (ops : FloatOps F) (buf : List Char) : Nat → Nat → Nat
  | p, 0 => p
  | p, j + 1 => token_ptr ops buf (p + (ops.strtof (c_string buf p)).2) j

/-- Value of the token number `j` (counted from 0) found by successive calls
of the scanner on `buf` starting at offset `p`. -/
def token_val {F : Type} (ops : FloatOps F) (buf : List Char) (p j : Nat) : F :=
  (ops.strtof (c_string buf (token_ptr ops buf p j))).1

/-! ## Quantities used to describe the fill loop -/

/-- The fields the fill loop never assigns. -/
def fill_frame {F : Type} (s t : State F) : Prop :=
  t.flash = s.flash ∧ t.published = s.published ∧ t.str_len = s.str_len ∧
  t.robotat_id = s.robotat_id ∧ t.robotat_id_use = s.robotat_id_use ∧
  t.chosen_robotat_id = s.chosen_robotat_id ∧
  t.robotat_id_use_flag = s.robotat_id_use_flag ∧ t.data_copy = s.data_copy ∧
  t.mes_ok_id = s.mes_ok_id ∧ t.data_mqtt.length = s.data_mqtt.length

/-- Number of iterations the loop test allows from the current `i`. -/
def fill_count {F : Type} (s : State F) : Nat := s.str_len - 2 - s.i

/-- What holds of slot 0 from a start on fresh storage: the array has its 55
slots and either no claim has been made (storage fresh, flag in memory 0) or
the record (1, c) is persisted and slot 0 holds `(float) c`. -/
def slot0_ok {F : Type} (ops : FloatOps F) (s : State F) : Prop :=
  s.data_mqtt.length = MAX_DATA_LENGTH_MQTT ∧
  ((s.flash = ⟨none, none⟩ ∧ s.robotat_id_use_flag = 0) ∨
    ∃ c, s.flash = ⟨some 1, some c⟩ ∧ s.data_mqtt[0]? = some (ops.of_uint8 c))

/-! ## `wifi_event_handler` -/

/-- The pairs `(event_base, event_id)` the handler tells apart; `OTHER` is
every other pair. -/
inductive wifi_event where
  | WIFI_EVENT_STA_START
  | WIFI_EVENT_STA_DISCONNECTED
  | IP_EVENT_STA_GOT_IP
  | OTHER
  deriving DecidableEq, Repr

/-- The function `wifi_event_handler`. `wifi_connect_calls` counts the calls
of `esp_wifi_connect`; the two bits are those of `s_wifi_event_group`. -/
def wifi_event_handler {F : Type} (s : State F) (e : wifi_event) : State F :=
  match e with
  | wifi_event.WIFI_EVENT_STA_START =>
    { s with wifi_connect_calls := s.wifi_connect_calls + 1 }
  | wifi_event.WIFI_EVENT_STA_DISCONNECTED =>
    let s :=
      if s.s_retry_num < WIFI_MAX_RETRY then
        { s with wifi_connect_calls := s.wifi_connect_calls + 1,
                 s_retry_num := (s.s_retry_num + 1) % 256 }
      else { s with wifi_fail_bit := true }
    { s with device_status := robotat_state_t.ROBOTAT_CONNECTION_ERROR_WIFI }
  | wifi_event.IP_EVENT_STA_GOT_IP =>
    { s with s_retry_num := 0, wifi_connected_bit := true,
             device_status := robotat_state_t.ROBOTAT_CONNECTION_SUCCESS_WIFI }
  | wifi_event.OTHER => s

/-- Deliver a list of events to the handler, in order. -/
def wifi_run {F : Type} (s : State F) (es : List wifi_event) : State F :=
  es.foldl wifi_event_handler s

/-- The event sequence used to illustrate the retry ceiling: 12
disconnections, an address acquisition, 3 more disconnections. -/
def sample_events : List wifi_event :=
  List.replicate 12 wifi_event.WIFI_EVENT_STA_DISCONNECTED ++
    wifi_event.IP_EVENT_STA_GOT_IP :: List.replicate 3 wifi_event.WIFI_EVENT_STA_DISCONNECTED

/-! ## `mqtt_event_handler` and `robotat_get_status` -/

/-- The broker events `mqtt_event_handler` tells apart; a data event carries
the received message, `OTHER` is every event id that reaches `default`. -/
inductive mqtt_event where
  | MQTT_EVENT_CONNECTED
  | MQTT_EVENT_DISCONNECTED
  | MQTT_EVENT_SUBSCRIBED
  | MQTT_EVENT_UNSUBSCRIBED
  | MQTT_EVENT_PUBLISHED
  | MQTT_EVENT_DATA (f : Frame)
  | MQTT_EVENT_ERROR
  | OTHER

/-- The function `mqtt_event_handler` (the lines it prints are left out). -/
def mqtt_event_handler {F : Type} (ops : FloatOps F) (s : State F) (e : mqtt_event) :
    State F :=
  match e with
  | mqtt_event.MQTT_EVENT_CONNECTED =>
    let s := { s with device_status := robotat_state_t.ROBOTAT_CONNECTION_SUCCESS_MQTT }
    { s with subscribe_requests := s.subscribe_requests ++ [("Robotat", 2)] }
  | mqtt_event.MQTT_EVENT_DISCONNECTED =>
    { s with device_status := robotat_state_t.ROBOTAT_DISCONNECTED_MQTT }
  | mqtt_event.MQTT_EVENT_SUBSCRIBED =>
    { s with device_status := robotat_state_t.ROBOTAT_SUBSCRIBED_TO_TOPIC }
  | mqtt_event.MQTT_EVENT_UNSUBSCRIBED => s
  | mqtt_event.MQTT_EVENT_PUBLISHED =>
    { s with device_status := robotat_state_t.ROBOTAT_MESSAGE_PUBLISHED }
  | mqtt_event.MQTT_EVENT_DATA f =>
    let s := { s with device_status := robotat_state_t.ROBOTAT_DATA_RECEIVED }
    data_parsing_mqtt ops f.outcome s f.mes_data f.mes_len
  | mqtt_event.MQTT_EVENT_ERROR =>
    { s with device_status := robotat_state_t.ROBOTAT_CONNECTION_ERROR_MQTT }
  | mqtt_event.OTHER =>
    { s with device_status := robotat_state_t.ROBOTAT_CONNECTING_MQTT }

/-- The function `robotat_get_status`. -/
def robotat_get_status {F : Type} (s : State F) : robotat_state_t := s.device_status

/-- The function `robotat_get_data`: the array `data_mqtt`. -/
def robotat_get_data {F : Type} (s : State F) : List F := s.data_mqtt

/-! ## Elementary facts about the phases of a parse -/

theorem to_uint8_lt (z : Int) : to_uint8 z < 256 := by
  unfold to_uint8
  have h1 := Int.emod_lt_of_pos z (by norm_num : (0 : Int) < 256)
  have h2 := Int.emod_nonneg z (by norm_num : (256 : Int) ≠ 0)
  omega

section phases

variable {F : Type} (ops : FloatOps F) (o : NvsOutcome) (s : State F)
  (mes_data : List Char) (mes_len : Nat)

@[simp]
theorem decode_header_flash :
    (decode_header ops s mes_data mes_len).flash = s.flash := rfl
@[simp]
theorem decode_header_published :
    (decode_header ops s mes_data mes_len).published = s.published := rfl
@[simp]
theorem decode_header_data_mqtt :
    (decode_header ops s mes_data mes_len).data_mqtt = s.data_mqtt := rfl
@[simp]
theorem decode_header_writes :
    (decode_header ops s mes_data mes_len).data_mqtt_writes = s.data_mqtt_writes := rfl
@[simp]
theorem decode_header_flag :
    (decode_header ops s mes_data mes_len).robotat_id_use_flag = s.robotat_id_use_flag := rfl
@[simp]
theorem decode_header_chosen :
    (decode_header ops s mes_data mes_len).chosen_robotat_id = s.chosen_robotat_id := rfl
@[simp]
theorem decode_header_mes_ok_id :
    (decode_header ops s mes_data mes_len).mes_ok_id
      = Nat.repr (decode_header ops s mes_data mes_len).robotat_id := rfl

theorem decode_header_str_len_lt :
    (decode_header ops s mes_data mes_len).str_len < 256 := to_uint8_lt _
theorem decode_header_robotat_id_lt :
    (decode_header ops s mes_data mes_len).robotat_id < 256 := to_uint8_lt _
theorem decode_header_robotat_id_use_lt :
    (decode_header ops s mes_data mes_len).robotat_id_use < 256 := to_uint8_lt _

@[simp]
theorem read_record_flash : (read_record o s).flash = s.flash := rfl
@[simp]
theorem read_record_published : (read_record o s).published = s.published := rfl
@[simp]
theorem read_record_data_mqtt : (read_record o s).data_mqtt = s.data_mqtt := rfl
@[simp]
theorem read_record_writes :
    (read_record o s).data_mqtt_writes = s.data_mqtt_writes := rfl
@[simp]
theorem read_record_str_len : (read_record o s).str_len = s.str_len := rfl
@[simp]
theorem read_record_robotat_id : (read_record o s).robotat_id = s.robotat_id := rfl
@[simp]
theorem read_record_robotat_id_use :
    (read_record o s).robotat_id_use = s.robotat_id_use := rfl
@[simp]
theorem read_record_mes_ok_id : (read_record o s).mes_ok_id = s.mes_ok_id := rfl
@[simp]
theorem read_record_data_copy : (read_record o s).data_copy = s.data_copy := rfl
@[simp]
theorem read_record_data_ptr : (read_record o s).data_ptr = s.data_ptr := rfl

/-- With the namespace opened and the flag read without error, the flag in
memory is the persisted one. -/
theorem read_record_flag_of_some (v : Nat) (h1 : o.open_read = true)
    (h2 : o.get_flag = true) (h : s.flash.id_use_flag = some v) :
    (read_record o s).robotat_id_use_flag = v := by
  simp [read_record, nvs_get_u8, h1, h2, h]

/-- A flag key that was never written leaves the flag in memory as it was. -/
theorem read_record_flag_of_none (h : s.flash.id_use_flag = none) :
    (read_record o s).robotat_id_use_flag = s.robotat_id_use_flag := by
  simp only [read_record, nvs_get_u8, h]
  cases (o.open_read && o.get_flag) <;> rfl

theorem read_record_chosen_of_some (v : Nat) (h1 : o.open_read = true)
    (h2 : o.get_id = true) (h : s.flash.chosen_mqtt_id = some v) :
    (read_record o s).chosen_robotat_id = v := by
  simp [read_record, nvs_get_u8, h1, h2, h]

end phases

/-! ## The claim step -/

section claim

variable {F : Type} (ops : FloatOps F) (o : NvsOutcome) (s : State F)

theorem write_record_frame :
    (write_record o s).str_len = s.str_len ∧ (write_record o s).robotat_id = s.robotat_id ∧
    (write_record o s).data_copy = s.data_copy ∧ (write_record o s).data_ptr = s.data_ptr ∧
    (write_record o s).published = s.published ∧ (write_record o s).data_mqtt = s.data_mqtt ∧
    (write_record o s).data_mqtt_writes = s.data_mqtt_writes ∧
    (write_record o s).robotat_id_use_flag = s.robotat_id_use_flag ∧
    (write_record o s).chosen_robotat_id = s.chosen_robotat_id := by
  unfold write_record
  cases (o.open_write && o.commit) <;> exact ⟨rfl, rfl, rfl, rfl, rfl, rfl, rfl, rfl, rfl⟩

theorem claim_step_of_false (h : claim_cond s = false) : claim_step ops o s = s := by
  simp [claim_step, h]

@[simp]
theorem claim_step_str_len : (claim_step ops o s).str_len = s.str_len := by
  unfold claim_step
  cases claim_cond s
  · rfl
  · exact (write_record_frame o _).1
@[simp]
theorem claim_step_robotat_id : (claim_step ops o s).robotat_id = s.robotat_id := by
  unfold claim_step
  cases claim_cond s
  · rfl
  · exact (write_record_frame o _).2.1
@[simp]
theorem claim_step_data_copy : (claim_step ops o s).data_copy = s.data_copy := by
  unfold claim_step
  cases claim_cond s
  · rfl
  · exact (write_record_frame o _).2.2.1
@[simp]
theorem claim_step_data_ptr : (claim_step ops o s).data_ptr = s.data_ptr := by
  unfold claim_step
  cases claim_cond s
  · rfl
  · exact (write_record_frame o _).2.2.2.1

theorem claim_step_published :
    (claim_step ops o s).published
      = s.published ++
        (if claim_cond s then [("Used_IDs", s.mes_ok_id ++ " " ++ MQTT_IDENTIFIER)] else []) := by
  unfold claim_step
  cases claim_cond s
  · simp
  · exact (write_record_frame o _).2.2.2.2.1

theorem claim_step_data_mqtt :
    (claim_step ops o s).data_mqtt
      = if claim_cond s then s.data_mqtt.set 0 (ops.of_uint8 s.robotat_id) else s.data_mqtt := by
  unfold claim_step
  cases claim_cond s
  · rfl
  · exact (write_record_frame o _).2.2.2.2.2.1

theorem claim_step_writes :
    (claim_step ops o s).data_mqtt_writes
      = s.data_mqtt_writes ++ (if claim_cond s then [0] else []) := by
  unfold claim_step
  cases claim_cond s
  · simp
  · exact (write_record_frame o _).2.2.2.2.2.2.1

theorem claim_step_chosen :
    (claim_step ops o s).chosen_robotat_id
      = if claim_cond s then s.robotat_id else s.chosen_robotat_id := by
  unfold claim_step
  cases claim_cond s
  · rfl
  · exact (write_record_frame o _).2.2.2.2.2.2.2.2

/-- When the claim step runs and every storage call succeeds, the persisted
record is the claimed one. -/
theorem claim_step_flash_ok (h : claim_cond s = true) :
    (claim_step ops NvsOutcome.ok s).flash = ⟨some 1, some s.robotat_id⟩ := by
  simp [claim_step, write_record, h, NvsOutcome.ok]

end claim

/-! ## The fill loop -/

section fill

variable {F : Type} (ops : FloatOps F)

theorem fill_frame_refl (s : State F) : fill_frame s s :=
  ⟨rfl, rfl, rfl, rfl, rfl, rfl, rfl, rfl, rfl, rfl⟩

theorem fill_frame_body (s : State F) : fill_frame s (fill_body ops s) :=
  ⟨rfl, rfl, rfl, rfl, rfl, rfl, rfl, rfl, rfl, by simp [fill_body, scan]⟩

theorem fill_frame_trans {s t u : State F} (h1 : fill_frame s t) (h2 : fill_frame t u) :
    fill_frame s u := by
  obtain ⟨a1, a2, a3, a4, a5, a6, a7, a8, a9, a10⟩ := h1
  obtain ⟨b1, b2, b3, b4, b5, b6, b7, b8, b9, b10⟩ := h2
  exact ⟨b1.trans a1, b2.trans a2, b3.trans a3, b4.trans a4, b5.trans a5, b6.trans a6,
    b7.trans a7, b8.trans a8, b9.trans a9, b10.trans a10⟩

theorem fill_loop_frame (fuel : Nat) (s : State F) : fill_frame s (fill_loop ops fuel s) := by
  induction fuel generalizing s with
  | zero => exact fill_frame_refl s
  | succ n ih =>
    simp only [fill_loop]
    split
    · exact fill_frame_trans (fill_frame_body ops s) (ih _)
    · exact fill_frame_refl s

theorem fill_loop_writes (fuel : Nat) (s : State F) (hn : s.str_len < 256)
    (hf : fill_count s ≤ fuel) :
    (fill_loop ops fuel s).data_mqtt_writes
      = s.data_mqtt_writes ++ List.range' s.i (fill_count s) := by
  induction fuel generalizing s with
  | zero =>
    have h0 : fill_count s = 0 := by omega
    simp [fill_loop, h0]
  | succ n ih =>
    simp only [fill_loop]
    unfold fill_count at hf
    split
    · rename_i hc
      have hi : (fill_body ops s).i = s.i + 1 := by
        show (s.i + 1) % 256 = s.i + 1
        apply Nat.mod_eq_of_lt; omega
      have hs : (fill_body ops s).str_len = s.str_len := rfl
      have hk : fill_count s = fill_count (fill_body ops s) + 1 := by
        unfold fill_count; rw [hi, hs]; omega
      rw [ih (fill_body ops s) (by rw [hs]; exact hn) (by unfold fill_count; rw [hi, hs]; omega)]
      rw [hk, List.range'_succ, hi]
      show (s.data_mqtt_writes ++ [s.i]) ++ _ = _
      simp
    · rename_i hc
      have h0 : fill_count s = 0 := by unfold fill_count; omega
      simp [h0]

theorem fill_loop_data_mqtt (fuel : Nat) (s : State F) (hn : s.str_len < 256)
    (hf : fill_count s ≤ fuel) (j : Nat) :
    (fill_loop ops fuel s).data_mqtt[j]?
      = if s.i ≤ j ∧ j + 2 < s.str_len then
          (s.data_mqtt.set j (token_val ops s.data_copy s.data_ptr (j - s.i)))[j]?
        else s.data_mqtt[j]? := by
  induction fuel generalizing s with
  | zero =>
    have h0 : ¬ (s.i ≤ j ∧ j + 2 < s.str_len) := by unfold fill_count at hf; omega
    simp [fill_loop, h0]
  | succ n ih =>
    simp only [fill_loop]
    unfold fill_count at hf
    split
    · rename_i hc
      have hi : (fill_body ops s).i = s.i + 1 := by
        show (s.i + 1) % 256 = s.i + 1
        apply Nat.mod_eq_of_lt; omega
      have hs : (fill_body ops s).str_len = s.str_len := rfl
      have hb : (fill_body ops s).data_copy = s.data_copy := rfl
      have hp : (fill_body ops s).data_ptr
          = s.data_ptr + (ops.strtof (c_string s.data_copy s.data_ptr)).2 := rfl
      have hd : (fill_body ops s).data_mqtt
          = s.data_mqtt.set s.i (ops.strtof (c_string s.data_copy s.data_ptr)).1 := rfl
      rw [ih (fill_body ops s) (by rw [hs]; exact hn) (by unfold fill_count; rw [hi, hs]; omega)]
      rw [hi, hs, hb, hp, hd]
      by_cases hj : s.i + 1 ≤ j ∧ j + 2 < s.str_len
      · have hj2 : s.i ≤ j ∧ j + 2 < s.str_len := ⟨by omega, hj.2⟩
        have ht : token_val ops s.data_copy s.data_ptr (j - s.i)
            = token_val ops s.data_copy
                (s.data_ptr + (ops.strtof (c_string s.data_copy s.data_ptr)).2) (j - (s.i + 1)) := by
          have : j - s.i = (j - (s.i + 1)) + 1 := by omega
          rw [this]; rfl
        rw [if_pos hj, if_pos hj2, ht]
        simp [List.getElem?_set]
      · rw [if_neg hj]
        by_cases hj3 : j = s.i
        · subst hj3
          have hj2 : s.i ≤ s.i ∧ s.i + 2 < s.str_len := ⟨le_refl _, by omega⟩
          rw [if_pos hj2]
          simp [token_val, token_ptr]
        · have hj2 : ¬ (s.i ≤ j ∧ j + 2 < s.str_len) := by omega
          rw [if_neg hj2]
          exact List.getElem?_set_ne (Ne.symm hj3)
    · rename_i hc
      have h0 : ¬ (s.i ≤ j ∧ j + 2 < s.str_len) := by omega
      simp [h0]

/-- With 256 units of fuel the loop of `fill_step` stops because its test
fails, not because the fuel is used up. -/
theorem fill_loop_exit (s : State F) (hn : s.str_len < 256) :
    ¬ (((fill_loop ops 256 s).i : Int) < ((fill_loop ops 256 s).str_len : Int) - 2) := by
  have key : ∀ (fuel : Nat) (t : State F), t.str_len < 256 → fill_count t ≤ fuel →
      ¬ (((fill_loop ops fuel t).i : Int) < ((fill_loop ops fuel t).str_len : Int) - 2) := by
    intro fuel
    induction fuel with
    | zero =>
      intro t _ hf
      unfold fill_count at hf
      simp only [fill_loop]; omega
    | succ n ih =>
      intro t ht hf
      unfold fill_count at hf
      simp only [fill_loop]
      split
      · rename_i hc
        have hi : (fill_body ops t).i = t.i + 1 := by
          show (t.i + 1) % 256 = t.i + 1
          apply Nat.mod_eq_of_lt; omega
        have hs : (fill_body ops t).str_len = t.str_len := rfl
        exact ih (fill_body ops t) (by rw [hs]; exact ht)
          (by unfold fill_count; rw [hi, hs]; omega)
      · rename_i hc; exact hc
  exact key 256 s hn (by unfold fill_count; omega)

theorem fill_step_frame (s : State F) : fill_frame s (fill_step ops s) := by
  unfold fill_step
  split
  · exact fill_frame_trans (s := s) (t := { s with i := 1 })
      ⟨rfl, rfl, rfl, rfl, rfl, rfl, rfl, rfl, rfl, rfl⟩ (fill_loop_frame ops 256 _)
  · exact fill_frame_refl s

theorem fill_step_writes (s : State F) (hn : s.str_len < 256) :
    (fill_step ops s).data_mqtt_writes
      = s.data_mqtt_writes ++
        (if addressed_cond s then List.range' 1 (s.str_len - 3) else []) := by
  unfold fill_step
  split
  · have hw := fill_loop_writes ops 256 { s with i := 1 } hn
      (by unfold fill_count; show s.str_len - 2 - 1 ≤ 256; omega)
    rw [hw]
    show s.data_mqtt_writes ++ List.range' 1 (s.str_len - 2 - 1) = _
    rw [Nat.sub_sub]
  · simp

theorem fill_step_data_mqtt (s : State F) (hn : s.str_len < 256) (j : Nat) :
    (fill_step ops s).data_mqtt[j]?
      = if addressed_cond s = true ∧ 1 ≤ j ∧ j + 2 < s.str_len then
          (s.data_mqtt.set j (token_val ops s.data_copy s.data_ptr (j - 1)))[j]?
        else s.data_mqtt[j]? := by
  unfold fill_step
  by_cases ha : addressed_cond s = true
  · rw [if_pos ha]
    have hd := fill_loop_data_mqtt ops 256 { s with i := 1 } hn
      (by unfold fill_count; show s.str_len - 2 - 1 ≤ 256; omega) j
    rw [hd]
    show (if 1 ≤ j ∧ j + 2 < s.str_len then _ else _) = _
    by_cases hj : 1 ≤ j ∧ j + 2 < s.str_len
    · rw [if_pos hj, if_pos ⟨ha, hj⟩]
    · rw [if_neg hj, if_neg (fun h => hj h.2)]
  · rw [if_neg ha, if_neg (fun h => ha h.1)]

end fill

/-! ## One whole parse -/

section parse

variable {F : Type} (ops : FloatOps F) (o : NvsOutcome) (s : State F)
  (mes_data : List Char) (mes_len : Nat)

/-- What a parse publishes: the announcement when the claim step runs,
nothing otherwise. -/
theorem parse_published :
    (data_parsing_mqtt ops o s mes_data mes_len).published
      = s.published ++
        (if claim_cond (read_record o (decode_header ops s mes_data mes_len)) then
          [("Used_IDs",
            Nat.repr (decode_header ops s mes_data mes_len).robotat_id ++ " " ++ MQTT_IDENTIFIER)]
        else []) := by
  unfold data_parsing_mqtt
  rw [(fill_step_frame ops _).2.1, claim_step_published]
  simp

/-- A parse in which the claim step does not run leaves the persisted record
as it was. -/
theorem parse_flash_of_no_claim
    (h : claim_cond (read_record o (decode_header ops s mes_data mes_len)) = false) :
    (data_parsing_mqtt ops o s mes_data mes_len).flash = s.flash := by
  unfold data_parsing_mqtt
  rw [(fill_step_frame ops _).1, claim_step_of_false ops o _ h]
  simp

/-- The flag read as 1 keeps the claim step from running. -/
theorem claim_cond_of_claimed (h1 : o.open_read = true) (h2 : o.get_flag = true)
    (h : s.flash.id_use_flag = some 1) :
    claim_cond (read_record o (decode_header ops s mes_data mes_len)) = false := by
  have hf := read_record_flag_of_some o (decode_header ops s mes_data mes_len) 1 h1 h2
    (by simpa using h)
  simp [claim_cond, hf]

/-- The indices a parse assigns when the test of line 120 holds. -/
theorem parse_writes_of_addressed
    (haddr : addressed_cond (claim_step ops o
      (read_record o (decode_header ops s mes_data mes_len))) = true) :
    (data_parsing_mqtt ops o s mes_data mes_len).data_mqtt_writes
      = s.data_mqtt_writes ++
        ((if claim_cond (read_record o (decode_header ops s mes_data mes_len)) then [0] else [])
          ++ List.range' 1 ((decode_header ops s mes_data mes_len).str_len - 3)) := by
  unfold data_parsing_mqtt
  rw [fill_step_writes ops _
    (by simpa using decode_header_str_len_lt ops s mes_data mes_len), haddr,
    claim_step_writes]
  simp

/-- Parsing any list of frames whose flag read succeeds keeps a claimed
record. -/
theorem parse_frames_flash (fs : List Frame) (h : s.flash.id_use_flag = some 1)
    (hok : ∀ f ∈ fs, f.outcome.open_read = true ∧ f.outcome.get_flag = true) :
    (parse_frames ops s fs).flash = s.flash := by
  induction fs generalizing s with
  | nil => rfl
  | cons f rest ih =>
    have hf := hok f (List.mem_cons_self _ _)
    have h1 : (data_parsing_mqtt ops f.outcome s f.mes_data f.mes_len).flash = s.flash :=
      parse_flash_of_no_claim ops f.outcome s f.mes_data f.mes_len
        (claim_cond_of_claimed ops f.outcome s f.mes_data f.mes_len hf.1 hf.2 h)
    show (parse_frames ops (data_parsing_mqtt ops f.outcome s f.mes_data f.mes_len) rest).flash
      = s.flash
    rw [ih _ (by rw [h1]; exact h) (fun g hg => hok g (List.mem_cons_of_mem _ hg)), h1]

end parse

/-! ## Stores outside the arrays -/

section bounds

variable {F : Type} (ops : FloatOps F)

theorem write_record_out_of_bounds (o : NvsOutcome) (s : State F) :
    (write_record o s).out_of_bounds = s.out_of_bounds := by
  unfold write_record
  cases (o.open_write && o.commit) <;> rfl

theorem claim_step_out_of_bounds (o : NvsOutcome) (s : State F) :
    (claim_step ops o s).out_of_bounds = s.out_of_bounds := by
  unfold claim_step
  cases claim_cond s
  · rfl
  · exact write_record_out_of_bounds o _

/-- The copy of line 92 leaves `data_copy` exactly when `mes_len` exceeds its
500 positions. -/
theorem decode_header_out_of_bounds (s : State F) (mes_data : List Char) (mes_len : Nat) :
    (decode_header ops s mes_data mes_len).out_of_bounds
      = (s.out_of_bounds || decide (MAX_STRING_LENGTH_MQTT < mes_len)) := rfl

/-- The loop stores outside `data_mqtt` exactly when it runs at all and its
last index `str_len - 3` is 55 or more. -/
theorem fill_loop_out_of_bounds (fuel : Nat) (s : State F) (hn : s.str_len < 256)
    (hf : fill_count s ≤ fuel) :
    (fill_loop ops fuel s).out_of_bounds
      = (s.out_of_bounds ||
          decide (s.i + 2 < s.str_len ∧ MAX_DATA_LENGTH_MQTT + 3 ≤ s.str_len)) := by
  induction fuel generalizing s with
  | zero =>
    unfold fill_count at hf
    have h0 : ¬ (s.i + 2 < s.str_len ∧ MAX_DATA_LENGTH_MQTT + 3 ≤ s.str_len) := by omega
    simp [fill_loop, h0]
  | succ n ih =>
    simp only [fill_loop]
    unfold fill_count at hf
    split
    · rename_i hc
      have hi : (fill_body ops s).i = s.i + 1 := by
        show (s.i + 1) % 256 = s.i + 1
        apply Nat.mod_eq_of_lt; omega
      have hs : (fill_body ops s).str_len = s.str_len := rfl
      have ho : (fill_body ops s).out_of_bounds
          = (s.out_of_bounds || decide (MAX_DATA_LENGTH_MQTT ≤ s.i)) := rfl
      rw [ih (fill_body ops s) (by rw [hs]; exact hn) (by unfold fill_count; rw [hi, hs]; omega),
        hi, hs, ho]
      unfold MAX_DATA_LENGTH_MQTT
      cases s.out_of_bounds
      · simp only [Bool.false_or]
        rw [Bool.eq_iff_iff]
        simp only [Bool.or_eq_true, decide_eq_true_eq]
        omega
      · simp
    · rename_i hc
      have h0 : ¬ (s.i + 2 < s.str_len ∧ MAX_DATA_LENGTH_MQTT + 3 ≤ s.str_len) := by omega
      simp [h0]

theorem fill_step_out_of_bounds (s : State F) (hn : s.str_len < 256) :
    (fill_step ops s).out_of_bounds
      = (s.out_of_bounds ||
          (addressed_cond s && decide (MAX_DATA_LENGTH_MQTT + 3 ≤ s.str_len))) := by
  unfold fill_step
  split
  · rename_i ha
    have h := fill_loop_out_of_bounds ops 256 { s with i := 1 } hn
      (by unfold fill_count; show s.str_len - 2 - 1 ≤ 256; omega)
    rw [h, ha]
    show (s.out_of_bounds ||
        decide (1 + 2 < s.str_len ∧ MAX_DATA_LENGTH_MQTT + 3 ≤ s.str_len)) = _
    unfold MAX_DATA_LENGTH_MQTT
    cases s.out_of_bounds
    · simp only [Bool.false_or, Bool.true_and]
      rw [Bool.eq_iff_iff]
      simp only [decide_eq_true_eq]
      omega
    · simp
  · rename_i ha
    simp [ha]

/-- A parse stores outside an array exactly when the copy does (`mes_len`
above 500) or the fill loop runs with a declaredCount of 58 or more. -/
theorem parse_out_of_bounds (o : NvsOutcome) (s : State F) (mes_data : List Char)
    (mes_len : Nat) :
    (data_parsing_mqtt ops o s mes_data mes_len).out_of_bounds
      = (s.out_of_bounds || decide (MAX_STRING_LENGTH_MQTT < mes_len) ||
          (addressed_cond (claim_step ops o
              (read_record o (decode_header ops s mes_data mes_len))) &&
            decide (MAX_DATA_LENGTH_MQTT + 3 ≤ (decode_header ops s mes_data mes_len).str_len))) := by
  unfold data_parsing_mqtt
  rw [fill_step_out_of_bounds ops _
    (by simpa using decode_header_str_len_lt ops s mes_data mes_len),
    claim_step_out_of_bounds, claim_step_str_len]
  rfl

end bounds

/-! ## Claim sequencing -/

/-- C4: from every state whose persisted `id_use_flag` is 1, and for every
finite list of frames parsed with the storage reads succeeding, after every
frame of the list (after each prefix `fs.take m`) the persisted
`id_use_flag` is still 1 and the persisted `chosen_mqtt_id` has the value it
had. -/
theorem C4_write_once {F : Type} (ops : FloatOps F) (s : State F) (fs : List Frame)
    (hclaimed : s.flash.id_use_flag = some 1)
    (hok : ∀ f ∈ fs, f.outcome.open_read = true ∧ f.outcome.get_flag = true) (m : Nat) :
    (parse_frames ops s (fs.take m)).flash.id_use_flag = some 1 ∧
    (parse_frames ops s (fs.take m)).flash.chosen_mqtt_id = s.flash.chosen_mqtt_id := by
  have h := parse_frames_flash ops s (fs.take m) hclaimed
    (fun f hf => hok f (List.mem_of_mem_take hf))
  rw [h]
  exact ⟨hclaimed, rfl⟩

/-- Witness of `C4_write_once`: record (1, 7), then a frame that offers id 3
as free, a frame for this device and a frame that offers id 9. -/
theorem C4_write_once_witness :
    (parse_frames decimal (State.boot decimal ⟨some 1, some 7⟩)
      ([⟨NvsOutcome.ok, "4 0 3 9.9".toList, 9⟩, ⟨NvsOutcome.ok, "5 1 7 1.5 2.5".toList, 13⟩,
        ⟨NvsOutcome.ok, "3 0 9".toList, 5⟩].take 3)).flash.id_use_flag = some 1 ∧
    (parse_frames decimal (State.boot decimal ⟨some 1, some 7⟩)
      ([⟨NvsOutcome.ok, "4 0 3 9.9".toList, 9⟩, ⟨NvsOutcome.ok, "5 1 7 1.5 2.5".toList, 13⟩,
        ⟨NvsOutcome.ok, "3 0 9".toList, 5⟩].take 3)).flash.chosen_mqtt_id
      = (State.boot decimal ⟨some 1, some 7⟩).flash.chosen_mqtt_id :=
  C4_write_once decimal (State.boot decimal ⟨some 1, some 7⟩)
    [⟨NvsOutcome.ok, "4 0 3 9.9".toList, 9⟩, ⟨NvsOutcome.ok, "5 1 7 1.5 2.5".toList, 13⟩,
      ⟨NvsOutcome.ok, "3 0 9".toList, 5⟩] rfl
    (by
      intro f hf
      simp only [List.mem_cons, List.mem_singleton, List.not_mem_nil, or_false] at hf
      rcases hf with h | h | h <;> subst h <;> exact ⟨rfl, rfl⟩) 3

/-! ## Capacity of `data_mqtt` -/

/-- C5, the code at the failing input. With the record (1, 7) the frame
"58 0 7 1.5" is addressed to this device and declares 58 > 56 values. The
parse does not reject it: slot 1 changes from 0 to 1.5, the loop assigns the
indices 1 to 55 and the store at index 55 lands outside the 55 slots of
`data_mqtt`. -/
theorem C5_overflow_not_rejected :
    (decode_header decimal (State.boot decimal ⟨some 1, some 7⟩) "58 0 7 1.5".toList 10).str_len
      = 58 ∧
    addressed_cond (claim_step decimal NvsOutcome.ok (read_record NvsOutcome.ok
      (decode_header decimal (State.boot decimal ⟨some 1, some 7⟩) "58 0 7 1.5".toList 10)))
      = true ∧
    (State.boot decimal ⟨some 1, some 7⟩).data_mqtt[1]? = some ⟨false, 0, 0⟩ ∧
    (data_parsing_mqtt decimal NvsOutcome.ok (State.boot decimal ⟨some 1, some 7⟩)
      "58 0 7 1.5".toList 10).data_mqtt[1]? = some ⟨false, 15, 1⟩ ∧
    (data_parsing_mqtt decimal NvsOutcome.ok (State.boot decimal ⟨some 1, some 7⟩)
      "58 0 7 1.5".toList 10).data_mqtt_writes = List.range' 1 55 ∧
    ¬ (55 < MAX_DATA_LENGTH_MQTT) ∧
    (State.boot decimal ⟨some 1, some 7⟩).out_of_bounds = false ∧
    (data_parsing_mqtt decimal NvsOutcome.ok (State.boot decimal ⟨some 1, some 7⟩)
      "58 0 7 1.5".toList 10).out_of_bounds = true := by
  decide

/-! ## Retry ceiling of the link -/

section wifi

variable {F : Type}

theorem wifi_run_cons (s : State F) (e : wifi_event) (es : List wifi_event) :
    wifi_run s (e :: es) = wifi_run (wifi_event_handler s e) es := rfl

theorem wifi_handler_retry_le (s : State F) (e : wifi_event)
    (h : s.s_retry_num ≤ WIFI_MAX_RETRY) :
    (wifi_event_handler s e).s_retry_num ≤ WIFI_MAX_RETRY := by
  unfold WIFI_MAX_RETRY at *
  cases e
  · exact h
  · by_cases hlt : s.s_retry_num < 10
    · simp only [wifi_event_handler, WIFI_MAX_RETRY, if_pos hlt]
      omega
    · simp only [wifi_event_handler, WIFI_MAX_RETRY, if_neg hlt]
      exact h
  · exact Nat.zero_le _
  · exact h

theorem wifi_run_retry_le (s : State F) (es : List wifi_event)
    (h : s.s_retry_num ≤ WIFI_MAX_RETRY) : (wifi_run s es).s_retry_num ≤ WIFI_MAX_RETRY := by
  induction es generalizing s with
  | nil => exact h
  | cons e es ih => rw [wifi_run_cons]; exact ih _ (wifi_handler_retry_le s e h)

/-- On a disconnection or an event the handler ignores, the number of
connection requests and the retry count grow together. -/
theorem wifi_handler_calls (s : State F) (e : wifi_event)
    (h : s.s_retry_num ≤ WIFI_MAX_RETRY)
    (he : e = wifi_event.WIFI_EVENT_STA_DISCONNECTED ∨ e = wifi_event.OTHER) :
    (wifi_event_handler s e).wifi_connect_calls + s.s_retry_num
      = s.wifi_connect_calls + (wifi_event_handler s e).s_retry_num := by
  unfold WIFI_MAX_RETRY at h
  rcases he with he | he <;> subst he
  · by_cases hlt : s.s_retry_num < 10
    · simp only [wifi_event_handler, WIFI_MAX_RETRY, if_pos hlt]
      omega
    · simp only [wifi_event_handler, WIFI_MAX_RETRY, if_neg hlt]
  · rfl

theorem wifi_run_calls (s : State F) (run : List wifi_event)
    (h : s.s_retry_num ≤ WIFI_MAX_RETRY)
    (hrun : ∀ e ∈ run, e = wifi_event.WIFI_EVENT_STA_DISCONNECTED ∨ e = wifi_event.OTHER) :
    (wifi_run s run).wifi_connect_calls + s.s_retry_num
      = s.wifi_connect_calls + (wifi_run s run).s_retry_num := by
  induction run generalizing s with
  | nil => rfl
  | cons e es ih =>
    rw [wifi_run_cons]
    have h1 := wifi_handler_calls s e h (hrun e (List.mem_cons_self _ _))
    have h2 := ih (wifi_event_handler s e) (wifi_handler_retry_le s e h)
      (fun x hx => hrun x (List.mem_cons_of_mem _ hx))
    omega

/-- From retry count `r`, `n` disconnections with `r + n` within the
ceiling issue `n` connection requests, raise the count to `r + n` and leave
the failure bit alone. -/
theorem wifi_run_disconnects (n : Nat) (s : State F)
    (h : s.s_retry_num + n ≤ WIFI_MAX_RETRY) :
    (wifi_run s (List.replicate n wifi_event.WIFI_EVENT_STA_DISCONNECTED)).s_retry_num
      = s.s_retry_num + n ∧
    (wifi_run s (List.replicate n wifi_event.WIFI_EVENT_STA_DISCONNECTED)).wifi_connect_calls
      = s.wifi_connect_calls + n ∧
    (wifi_run s (List.replicate n wifi_event.WIFI_EVENT_STA_DISCONNECTED)).wifi_fail_bit
      = s.wifi_fail_bit := by
  induction n generalizing s with
  | zero => exact ⟨rfl, rfl, rfl⟩
  | succ n ih =>
    unfold WIFI_MAX_RETRY at h
    have hlt : s.s_retry_num < 10 := by omega
    rw [List.replicate_succ, wifi_run_cons]
    have hr : (wifi_event_handler s wifi_event.WIFI_EVENT_STA_DISCONNECTED).s_retry_num
        = s.s_retry_num + 1 := by
      simp only [wifi_event_handler, WIFI_MAX_RETRY, if_pos hlt]
      omega
    have hcl : (wifi_event_handler s wifi_event.WIFI_EVENT_STA_DISCONNECTED).wifi_connect_calls
        = s.wifi_connect_calls + 1 := by
      simp only [wifi_event_handler, WIFI_MAX_RETRY, if_pos hlt]
    have hfb : (wifi_event_handler s wifi_event.WIFI_EVENT_STA_DISCONNECTED).wifi_fail_bit
        = s.wifi_fail_bit := by
      simp only [wifi_event_handler, WIFI_MAX_RETRY, if_pos hlt]
    obtain ⟨h1, h2, h3⟩ := ih (wifi_event_handler s wifi_event.WIFI_EVENT_STA_DISCONNECTED)
      (by unfold WIFI_MAX_RETRY; omega)
    refine ⟨?_, ?_, ?_⟩
    · rw [h1, hr]; omega
    · rw [h2, hcl]; omega
    · rw [h3, hfb]

/-- A disconnection at the ceiling asks for no connection, keeps the count
and sets the failure bit. -/
theorem wifi_handler_at_ceiling (s : State F) (h : s.s_retry_num = WIFI_MAX_RETRY) :
    (wifi_event_handler s wifi_event.WIFI_EVENT_STA_DISCONNECTED).wifi_connect_calls
      = s.wifi_connect_calls ∧
    (wifi_event_handler s wifi_event.WIFI_EVENT_STA_DISCONNECTED).wifi_fail_bit = true ∧
    (wifi_event_handler s wifi_event.WIFI_EVENT_STA_DISCONNECTED).s_retry_num
      = WIFI_MAX_RETRY := by
  have hlt : ¬ s.s_retry_num < WIFI_MAX_RETRY := by omega
  refine ⟨?_, ?_, ?_⟩
  · simp only [wifi_event_handler, if_neg hlt]
  · simp only [wifi_event_handler, if_neg hlt]
  · simp only [wifi_event_handler, if_neg hlt]
    exact h

end wifi

/-- C6 as stated fails. From the power-up state (retry count 0, failure bit
clear), after exactly 10 consecutive disconnections the retry count is 10,
10 connection requests have been issued and the failure bit is still
clear. -/
theorem C6_counterexample :
    (State.boot decimal ⟨none, none⟩).s_retry_num = 0 ∧
    (wifi_run (State.boot decimal ⟨none, none⟩)
      (List.replicate WIFI_MAX_RETRY wifi_event.WIFI_EVENT_STA_DISCONNECTED)).wifi_fail_bit
      = false ∧
    (wifi_run (State.boot decimal ⟨none, none⟩)
      (List.replicate WIFI_MAX_RETRY wifi_event.WIFI_EVENT_STA_DISCONNECTED)).s_retry_num
      = 10 ∧
    (wifi_run (State.boot decimal ⟨none, none⟩)
      (List.replicate WIFI_MAX_RETRY wifi_event.WIFI_EVENT_STA_DISCONNECTED)).wifi_connect_calls
      = 10 := by
  decide

/-- C6 amended: starting from retry count 0, the first 10 consecutive
disconnections each issue a connection request and leave the failure bit as
it was (retry count 10 after them); it is the 11th consecutive
disconnection, with no address acquisition in between, that sets
`WIFI_FAIL_BIT`, and it issues no further connection request. -/
theorem C6_fail_on_eleventh {F : Type} (s : State F) (h0 : s.s_retry_num = 0) :
    (wifi_run s (List.replicate WIFI_MAX_RETRY
      wifi_event.WIFI_EVENT_STA_DISCONNECTED)).wifi_fail_bit = s.wifi_fail_bit ∧
    (wifi_run s (List.replicate WIFI_MAX_RETRY
      wifi_event.WIFI_EVENT_STA_DISCONNECTED)).s_retry_num = WIFI_MAX_RETRY ∧
    (wifi_run s (List.replicate WIFI_MAX_RETRY
      wifi_event.WIFI_EVENT_STA_DISCONNECTED)).wifi_connect_calls
      = s.wifi_connect_calls + WIFI_MAX_RETRY ∧
    (wifi_run s (List.replicate (WIFI_MAX_RETRY + 1)
      wifi_event.WIFI_EVENT_STA_DISCONNECTED)).wifi_fail_bit = true ∧
    (wifi_run s (List.replicate (WIFI_MAX_RETRY + 1)
      wifi_event.WIFI_EVENT_STA_DISCONNECTED)).wifi_connect_calls
      = s.wifi_connect_calls + WIFI_MAX_RETRY := by
  obtain ⟨h1, h2, h3⟩ := wifi_run_disconnects WIFI_MAX_RETRY s (by rw [h0]; omega)
  have h1 : (wifi_run s (List.replicate WIFI_MAX_RETRY
      wifi_event.WIFI_EVENT_STA_DISCONNECTED)).s_retry_num = WIFI_MAX_RETRY := by
    rw [h1, h0]; omega
  have hlast : wifi_run s (List.replicate (WIFI_MAX_RETRY + 1)
      wifi_event.WIFI_EVENT_STA_DISCONNECTED)
      = wifi_event_handler (wifi_run s (List.replicate WIFI_MAX_RETRY
          wifi_event.WIFI_EVENT_STA_DISCONNECTED)) wifi_event.WIFI_EVENT_STA_DISCONNECTED := by
    rw [List.replicate_succ', wifi_run, List.foldl_append]
    rfl
  obtain ⟨a1, a2, _⟩ := wifi_handler_at_ceiling _ h1
  refine ⟨h3, h1, h2, ?_, ?_⟩
  · rw [hlast]; exact a2
  · rw [hlast, a1]; exact h2

/-- Witness of `C6_fail_on_eleventh` at the power-up state. -/
theorem C6_fail_on_eleventh_witness :
    (wifi_run (State.boot decimal ⟨none, none⟩) (List.replicate WIFI_MAX_RETRY
      wifi_event.WIFI_EVENT_STA_DISCONNECTED)).wifi_fail_bit
      = (State.boot decimal ⟨none, none⟩).wifi_fail_bit ∧
    (wifi_run (State.boot decimal ⟨none, none⟩) (List.replicate WIFI_MAX_RETRY
      wifi_event.WIFI_EVENT_STA_DISCONNECTED)).s_retry_num = WIFI_MAX_RETRY ∧
    (wifi_run (State.boot decimal ⟨none, none⟩) (List.replicate WIFI_MAX_RETRY
      wifi_event.WIFI_EVENT_STA_DISCONNECTED)).wifi_connect_calls
      = (State.boot decimal ⟨none, none⟩).wifi_connect_calls + WIFI_MAX_RETRY ∧
    (wifi_run (State.boot decimal ⟨none, none⟩) (List.replicate (WIFI_MAX_RETRY + 1)
      wifi_event.WIFI_EVENT_STA_DISCONNECTED)).wifi_fail_bit = true ∧
    (wifi_run (State.boot decimal ⟨none, none⟩) (List.replicate (WIFI_MAX_RETRY + 1)
      wifi_event.WIFI_EVENT_STA_DISCONNECTED)).wifi_connect_calls
      = (State.boot decimal ⟨none, none⟩).wifi_connect_calls + WIFI_MAX_RETRY :=
  C6_fail_on_eleventh (State.boot decimal ⟨none, none⟩) rfl

/-- C7: starting from retry count 0, after every event sequence `es` the
retry count is at most `WIFI_MAX_RETRY`; from the state reached, a run of
disconnections (and events the handler ignores) issues at most 10 connection
requests; a disconnection at retry count 10 issues none, keeps the count and
sets the failure bit; an address acquisition resets the count to 0. -/
theorem C7_retry_bound {F : Type} (s : State F) (h0 : s.s_retry_num = 0)
    (es run : List wifi_event)
    (hrun : ∀ e ∈ run, e = wifi_event.WIFI_EVENT_STA_DISCONNECTED ∨ e = wifi_event.OTHER) :
    (wifi_run s es).s_retry_num ≤ WIFI_MAX_RETRY ∧
    (wifi_run (wifi_run s es) run).wifi_connect_calls
      ≤ (wifi_run s es).wifi_connect_calls + WIFI_MAX_RETRY ∧
    ((wifi_run s es).s_retry_num = WIFI_MAX_RETRY →
      (wifi_event_handler (wifi_run s es)
        wifi_event.WIFI_EVENT_STA_DISCONNECTED).wifi_connect_calls
        = (wifi_run s es).wifi_connect_calls ∧
      (wifi_event_handler (wifi_run s es)
        wifi_event.WIFI_EVENT_STA_DISCONNECTED).wifi_fail_bit = true ∧
      (wifi_event_handler (wifi_run s es)
        wifi_event.WIFI_EVENT_STA_DISCONNECTED).s_retry_num = WIFI_MAX_RETRY) ∧
    (wifi_event_handler (wifi_run s es) wifi_event.IP_EVENT_STA_GOT_IP).s_retry_num = 0 := by
  have hle : (wifi_run s es).s_retry_num ≤ WIFI_MAX_RETRY :=
    wifi_run_retry_le s es (by rw [h0]; exact Nat.zero_le _)
  have hcalls := wifi_run_calls (wifi_run s es) run hle hrun
  have hle2 := wifi_run_retry_le (wifi_run s es) run hle
  refine ⟨hle, by omega, wifi_handler_at_ceiling _, rfl⟩

/-- Witness of `C7_retry_bound`: 12 disconnections, an address acquisition
and 3 more disconnections, followed by a run of 15 disconnections. -/
theorem C7_retry_bound_witness :
    (wifi_run (State.boot decimal ⟨none, none⟩) sample_events).s_retry_num ≤ WIFI_MAX_RETRY ∧
    (wifi_run (wifi_run (State.boot decimal ⟨none, none⟩) sample_events)
      (List.replicate 15 wifi_event.WIFI_EVENT_STA_DISCONNECTED)).wifi_connect_calls
      ≤ (wifi_run (State.boot decimal ⟨none, none⟩) sample_events).wifi_connect_calls
        + WIFI_MAX_RETRY ∧
    ((wifi_run (State.boot decimal ⟨none, none⟩) sample_events).s_retry_num = WIFI_MAX_RETRY →
      (wifi_event_handler (wifi_run (State.boot decimal ⟨none, none⟩) sample_events)
        wifi_event.WIFI_EVENT_STA_DISCONNECTED).wifi_connect_calls
        = (wifi_run (State.boot decimal ⟨none, none⟩) sample_events).wifi_connect_calls ∧
      (wifi_event_handler (wifi_run (State.boot decimal ⟨none, none⟩) sample_events)
        wifi_event.WIFI_EVENT_STA_DISCONNECTED).wifi_fail_bit = true ∧
      (wifi_event_handler (wifi_run (State.boot decimal ⟨none, none⟩) sample_events)
        wifi_event.WIFI_EVENT_STA_DISCONNECTED).s_retry_num = WIFI_MAX_RETRY) ∧
    (wifi_event_handler (wifi_run (State.boot decimal ⟨none, none⟩) sample_events)
      wifi_event.IP_EVENT_STA_GOT_IP).s_retry_num = 0 :=
  C7_retry_bound (State.boot decimal ⟨none, none⟩) rfl sample_events
    (List.replicate 15 wifi_event.WIFI_EVENT_STA_DISCONNECTED)
    (fun _ he => Or.inl (List.eq_of_mem_replicate he))

/-! ## When the claim step runs -/

/-- C8 as stated fails. On fresh storage the frame "3 0 12" has second
header field 0, and the parse performs the claim step: it publishes
"12 ESP32_Drone" on "Used_IDs" and the persisted record becomes (1, 12). -/
theorem C8_counterexample :
    (decode_header decimal (State.boot decimal ⟨none, none⟩) "3 0 12".toList 6).robotat_id_use
      = 0 ∧
    (data_parsing_mqtt decimal NvsOutcome.ok (State.boot decimal ⟨none, none⟩)
      "3 0 12".toList 6).published = [("Used_IDs", "12 ESP32_Drone")] ∧
    (data_parsing_mqtt decimal NvsOutcome.ok (State.boot decimal ⟨none, none⟩)
      "3 0 12".toList 6).flash = ⟨some 1, some 12⟩ ∧
    (State.boot decimal ⟨none, none⟩).flash = ⟨none, none⟩ ∧
    (State.boot decimal ⟨none, none⟩).published = [] := by
  decide

/-- C8 amended: for every frame whose second header field decodes to a value
other than 0 (1 for instance), whatever the persisted record and whatever the
storage calls return, the parse does not perform the claim step: the
persisted record is unchanged and nothing is published. -/
theorem C8_no_claim_on_used_id {F : Type} (ops : FloatOps F) (o : NvsOutcome) (s : State F)
    (mes_data : List Char) (mes_len : Nat)
    (huse : (decode_header ops s mes_data mes_len).robotat_id_use ≠ 0) :
    claim_cond (read_record o (decode_header ops s mes_data mes_len)) = false ∧
    (data_parsing_mqtt ops o s mes_data mes_len).flash = s.flash ∧
    (data_parsing_mqtt ops o s mes_data mes_len).published = s.published := by
  have hc : claim_cond (read_record o (decode_header ops s mes_data mes_len)) = false := by
    simp [claim_cond, huse]
  refine ⟨hc, parse_flash_of_no_claim ops o s mes_data mes_len hc, ?_⟩
  rw [parse_published, hc]; simp

/-- Witness of `C8_no_claim_on_used_id`: fresh storage and the frame
"3 1 12". -/
theorem C8_no_claim_on_used_id_witness :
    claim_cond (read_record NvsOutcome.ok
      (decode_header decimal (State.boot decimal ⟨none, none⟩) "3 1 12".toList 6)) = false ∧
    (data_parsing_mqtt decimal NvsOutcome.ok (State.boot decimal ⟨none, none⟩)
      "3 1 12".toList 6).flash = (State.boot decimal ⟨none, none⟩).flash ∧
    (data_parsing_mqtt decimal NvsOutcome.ok (State.boot decimal ⟨none, none⟩)
      "3 1 12".toList 6).published = (State.boot decimal ⟨none, none⟩).published :=
  C8_no_claim_on_used_id decimal NvsOutcome.ok (State.boot decimal ⟨none, none⟩)
    "3 1 12".toList 6 (by decide)

/-- C9: in every parse, whatever the storage calls return, the messages
published by the parse are: when the test of line 104 holds (the claim step
runs), exactly one message, on "Used_IDs", made of the decimal digits of the
candidate id, one space and "ESP32_Drone"; otherwise none. The candidate id
is an 8-bit value. -/
theorem C9_announcement {F : Type} (ops : FloatOps F) (o : NvsOutcome) (s : State F)
    (mes_data : List Char) (mes_len : Nat) :
    (data_parsing_mqtt ops o s mes_data mes_len).published
      = s.published ++
        (if claim_cond (read_record o (decode_header ops s mes_data mes_len)) then
          [("Used_IDs",
            Nat.repr (decode_header ops s mes_data mes_len).robotat_id ++ " " ++ "ESP32_Drone")]
        else []) ∧
    (decode_header ops s mes_data mes_len).robotat_id ≤ 255 := by
  refine ⟨parse_published ops o s mes_data mes_len, ?_⟩
  have := decode_header_robotat_id_lt ops s mes_data mes_len
  omega

/-! ## Record round trip -/

/-- C10: when the storage calls succeed, writing the record (1, c) the way
the claim step does (`write_record` on a state whose flag is 1 and whose
chosen id is `c`) and then reading it the way the start of a parse does
(`read_record`, from any state of the variables in memory, after a restart
for instance) yields flag 1 and chosen id `c`. -/
theorem C10_round_trip {F : Type} (s t : State F) (c : Nat)
    (hflag : s.robotat_id_use_flag = 1) (hid : s.chosen_robotat_id = c)
    (ht : t.flash = (write_record NvsOutcome.ok s).flash) :
    (write_record NvsOutcome.ok s).flash = ⟨some 1, some c⟩ ∧
    (read_record NvsOutcome.ok t).robotat_id_use_flag = 1 ∧
    (read_record NvsOutcome.ok t).chosen_robotat_id = c := by
  have hw : (write_record NvsOutcome.ok s).flash = ⟨some 1, some c⟩ := by
    simp [write_record, NvsOutcome.ok, hflag, hid]
  rw [hw] at ht
  refine ⟨hw, ?_, ?_⟩
  · exact read_record_flag_of_some _ _ 1 rfl rfl (by rw [ht])
  · exact read_record_chosen_of_some _ _ c rfl rfl (by rw [ht])

/-- Witness of `C10_round_trip`: the record (1, 42) written from the state of
a claim and read back after a restart. -/
theorem C10_round_trip_witness :
    (write_record NvsOutcome.ok
      { State.boot decimal ⟨none, none⟩ with robotat_id_use_flag := 1,
                                             chosen_robotat_id := 42 }).flash
      = ⟨some 1, some 42⟩ ∧
    (read_record NvsOutcome.ok (State.boot decimal ⟨some 1, some 42⟩)).robotat_id_use_flag = 1 ∧
    (read_record NvsOutcome.ok (State.boot decimal ⟨some 1, some 42⟩)).chosen_robotat_id = 42 :=
  C10_round_trip
    { State.boot decimal ⟨none, none⟩ with robotat_id_use_flag := 1, chosen_robotat_id := 42 }
    (State.boot decimal ⟨some 1, some 42⟩) 42 rfl rfl rfl

/-! ## Status reported to the application -/

section status

variable {F : Type} (ops : FloatOps F)

theorem write_record_device_status (o : NvsOutcome) (s : State F) :
    (write_record o s).device_status = s.device_status := by
  unfold write_record
  cases (o.open_write && o.commit) <;> rfl

theorem claim_step_device_status (o : NvsOutcome) (s : State F) :
    (claim_step ops o s).device_status = s.device_status := by
  unfold claim_step
  cases claim_cond s
  · rfl
  · exact write_record_device_status o _

theorem fill_loop_device_status (fuel : Nat) (s : State F) :
    (fill_loop ops fuel s).device_status = s.device_status := by
  induction fuel generalizing s with
  | zero => rfl
  | succ n ih =>
    simp only [fill_loop]
    split
    · rw [ih]; rfl
    · rfl

theorem fill_step_device_status (s : State F) :
    (fill_step ops s).device_status = s.device_status := by
  unfold fill_step
  split
  · rw [fill_loop_device_status]
  · rfl

/-- A parse never assigns `device_status`. -/
theorem parse_device_status (o : NvsOutcome) (s : State F) (mes_data : List Char)
    (mes_len : Nat) :
    (data_parsing_mqtt ops o s mes_data mes_len).device_status = s.device_status := by
  unfold data_parsing_mqtt
  rw [fill_step_device_status, claim_step_device_status]
  rfl

end status

/-- Status after a broker event, on the runs that keep every store inside
the arrays: whatever the status was before, `robotat_get_status` after
`mqtt_event_handler` returns the value the case of the switch assigns; for a
Data event this is ROBOTAT_DATA_RECEIVED provided the parse of the frame has
not stored outside `data_copy` or `data_mqtt`. -/
theorem status_after_event {F : Type} (ops : FloatOps F) (s : State F) :
    robotat_get_status (mqtt_event_handler ops s mqtt_event.MQTT_EVENT_CONNECTED)
      = robotat_state_t.ROBOTAT_CONNECTION_SUCCESS_MQTT ∧
    robotat_get_status (mqtt_event_handler ops s mqtt_event.MQTT_EVENT_DISCONNECTED)
      = robotat_state_t.ROBOTAT_DISCONNECTED_MQTT ∧
    robotat_get_status (mqtt_event_handler ops s mqtt_event.MQTT_EVENT_SUBSCRIBED)
      = robotat_state_t.ROBOTAT_SUBSCRIBED_TO_TOPIC ∧
    robotat_get_status (mqtt_event_handler ops s mqtt_event.MQTT_EVENT_PUBLISHED)
      = robotat_state_t.ROBOTAT_MESSAGE_PUBLISHED ∧
    robotat_get_status (mqtt_event_handler ops s mqtt_event.MQTT_EVENT_ERROR)
      = robotat_state_t.ROBOTAT_CONNECTION_ERROR_MQTT ∧
    ∀ f : Frame,
      (mqtt_event_handler ops s (mqtt_event.MQTT_EVENT_DATA f)).out_of_bounds = false →
      robotat_get_status (mqtt_event_handler ops s (mqtt_event.MQTT_EVENT_DATA f))
        = robotat_state_t.ROBOTAT_DATA_RECEIVED := by
  refine ⟨rfl, rfl, rfl, rfl, rfl, ?_⟩
  intro f _
  show (data_parsing_mqtt ops f.outcome _ f.mes_data f.mes_len).device_status = _
  rw [parse_device_status]

/-- C11, the code at the failing input. The device holds the record (1, 7)
and receives a Data event with the frame "72 0 7". The frame is addressed
and declares 72 values, so the fill loop assigns the indices 1 to 69: the 15
stores at indices 55 to 69 land in the objects that follow `data_mqtt`,
where `device_status`, assigned at line 182 before the parse, may lie. -/
theorem C11_data_event_leaves_array :
    (State.boot decimal ⟨some 1, some 7⟩).out_of_bounds = false ∧
    (decode_header decimal (State.boot decimal ⟨some 1, some 7⟩) "72 0 7".toList 6).str_len
      = 72 ∧
    addressed_cond (claim_step decimal NvsOutcome.ok (read_record NvsOutcome.ok
      (decode_header decimal (State.boot decimal ⟨some 1, some 7⟩) "72 0 7".toList 6)))
      = true ∧
    (mqtt_event_handler decimal (State.boot decimal ⟨some 1, some 7⟩)
      (mqtt_event.MQTT_EVENT_DATA ⟨NvsOutcome.ok, "72 0 7".toList, 6⟩)).data_mqtt_writes
      = List.range' 1 69 ∧
    (mqtt_event_handler decimal (State.boot decimal ⟨some 1, some 7⟩)
      (mqtt_event.MQTT_EVENT_DATA ⟨NvsOutcome.ok, "72 0 7".toList, 6⟩)).out_of_bounds
      = true := by
  have hd : (decode_header decimal
      { State.boot decimal ⟨some 1, some 7⟩ with
        device_status := robotat_state_t.ROBOTAT_DATA_RECEIVED } "72 0 7".toList 6).str_len
      = 72 := by decide
  have ha : addressed_cond (claim_step decimal NvsOutcome.ok (read_record NvsOutcome.ok
      (decode_header decimal
        { State.boot decimal ⟨some 1, some 7⟩ with
          device_status := robotat_state_t.ROBOTAT_DATA_RECEIVED } "72 0 7".toList 6)))
      = true := by decide
  have hc : claim_cond (read_record NvsOutcome.ok
      (decode_header decimal
        { State.boot decimal ⟨some 1, some 7⟩ with
          device_status := robotat_state_t.ROBOTAT_DATA_RECEIVED } "72 0 7".toList 6))
      = false := by decide
  refine ⟨rfl, by decide, by decide, ?_, ?_⟩
  · show (data_parsing_mqtt decimal NvsOutcome.ok
      { State.boot decimal ⟨some 1, some 7⟩ with
        device_status := robotat_state_t.ROBOTAT_DATA_RECEIVED }
      "72 0 7".toList 6).data_mqtt_writes = _
    rw [parse_writes_of_addressed decimal NvsOutcome.ok _ _ _ ha, hc, hd]
    rfl
  · show (data_parsing_mqtt decimal NvsOutcome.ok
      { State.boot decimal ⟨some 1, some 7⟩ with
        device_status := robotat_state_t.ROBOTAT_DATA_RECEIVED }
      "72 0 7".toList 6).out_of_bounds = _
    rw [parse_out_of_bounds, ha, hd]
    rfl

/-! ## The copy into `data_copy` -/

section copy

theorem strncpy_body_length_le (src : List Char) (n : Nat) :
    ((src.takeWhile (fun c => c != NUL)).take n).length ≤ n := by
  rw [List.length_take]; exact Nat.min_le_left _ _

/-- The first `n` positions after `strncpy` are the message characters up to
the first NUL followed by NUL padding: the call assigns `n` positions. -/
theorem strncpy_take (dst src : List Char) (n : Nat) :
    (strncpy dst src n).take n
      = (src.takeWhile (fun c => c != NUL)).take n ++
        List.replicate (n - ((src.takeWhile (fun c => c != NUL)).take n).length) NUL := by
  have hb := strncpy_body_length_le src n
  unfold strncpy
  apply List.take_left'
  rw [List.length_append, List.length_replicate]
  omega

/-- Positions from `n` on are not touched by `strncpy`. -/
theorem strncpy_drop (dst src : List Char) (n : Nat) :
    (strncpy dst src n).drop n = dst.drop n := by
  have hb := strncpy_body_length_le src n
  unfold strncpy
  apply List.drop_left'
  rw [List.length_append, List.length_replicate]
  omega

/-- A message without NUL, copied with its own length, replaces the start of
the buffer and brings no terminator with it. -/
theorem strncpy_of_text (dst src : List Char) (n : Nat) (h : ∀ c ∈ src, c ≠ NUL)
    (hl : src.length = n) : strncpy dst src n = src ++ dst.drop n := by
  have ht : src.takeWhile (fun c => c != NUL) = src := by
    rw [List.takeWhile_eq_self_iff]
    intro c hc
    simpa using h c hc
  unfold strncpy
  simp only [ht]
  rw [List.take_of_length_le (by omega), hl, Nat.sub_self]
  simp

variable {F : Type} (ops : FloatOps F)

end copy

/-- C12, the code at the failing input. A message of 501 characters `x`
with `mes_len = 501`, parsed from the power-up state: `strncpy` assigns 501
positions from `data_copy[0]` on, so the character at position 500 is written
past the 500 positions of the array (the claim allows min(501, 500) = 500
characters). -/
theorem C12_copy_past_data_copy :
    (State.boot decimal ⟨none, none⟩).data_copy.length = MAX_STRING_LENGTH_MQTT ∧
    (State.boot decimal ⟨none, none⟩).out_of_bounds = false ∧
    (strncpy (State.boot decimal ⟨none, none⟩).data_copy (List.replicate 501 'x') 501).take 501
      = List.replicate 501 'x' ∧
    (strncpy (State.boot decimal ⟨none, none⟩).data_copy (List.replicate 501 'x') 501)[500]?
      = some 'x' ∧
    ¬ (500 < MAX_STRING_LENGTH_MQTT) ∧
    ¬ (501 ≤ min 501 MAX_STRING_LENGTH_MQTT) ∧
    (data_parsing_mqtt decimal NvsOutcome.ok (State.boot decimal ⟨none, none⟩)
      (List.replicate 501 'x') 501).out_of_bounds = true := by
  have hx : ∀ c ∈ List.replicate 501 'x', c ≠ NUL := by
    intro c hc
    rw [List.eq_of_mem_replicate hc]
    decide
  have hc := strncpy_of_text (State.boot decimal ⟨none, none⟩).data_copy
    (List.replicate 501 'x') 501 hx (List.length_replicate _ _)
  refine ⟨List.length_replicate _ _, rfl, ?_, ?_, by decide, by decide, ?_⟩
  · rw [hc]
    exact List.take_left' (List.length_replicate _ _)
  · rw [hc, List.getElem?_append_left (by rw [List.length_replicate]; omega),
      List.getElem?_replicate, if_pos (by omega)]
  · rw [parse_out_of_bounds]
    have h1 : decide (MAX_STRING_LENGTH_MQTT < 501) = true := by decide
    rw [h1, Bool.or_true, Bool.true_or]

/-! ## Bytes left in `data_copy` by an earlier frame -/

/-- C13, the code at the failing input. The device holds the record (1, 7).
History A is the power-up state; history B has parsed the frame
"9 1 8 6.5" (for device 8) and history C the frame "4 0 123 9" (for device
123); all three end with the same persisted record and the same payload
buffer. The frame "4 0 7" with `mes_len = 5` then stores 0 in slot 1 after
history A and 6.5, a token of the earlier frame, after history B; the frame
"3 0 7" with `mes_len = 5` has candidate id 7 after history A and 211 (the
text "723" reduced modulo 256) after history C. -/
theorem C13_stale_bytes_are_scanned :
    (data_parsing_mqtt decimal NvsOutcome.ok (State.boot decimal ⟨some 1, some 7⟩)
      "9 1 8 6.5".toList 9).flash = (State.boot decimal ⟨some 1, some 7⟩).flash ∧
    (data_parsing_mqtt decimal NvsOutcome.ok (State.boot decimal ⟨some 1, some 7⟩)
      "9 1 8 6.5".toList 9).data_mqtt = (State.boot decimal ⟨some 1, some 7⟩).data_mqtt ∧
    (data_parsing_mqtt decimal NvsOutcome.ok (State.boot decimal ⟨some 1, some 7⟩)
      "4 0 7".toList 5).data_mqtt[1]? = some ⟨false, 0, 0⟩ ∧
    (data_parsing_mqtt decimal NvsOutcome.ok
      (data_parsing_mqtt decimal NvsOutcome.ok (State.boot decimal ⟨some 1, some 7⟩)
        "9 1 8 6.5".toList 9)
      "4 0 7".toList 5).data_mqtt[1]? = some ⟨false, 65, 1⟩ ∧
    (data_parsing_mqtt decimal NvsOutcome.ok (State.boot decimal ⟨some 1, some 7⟩)
      "4 0 123 9".toList 9).flash = (State.boot decimal ⟨some 1, some 7⟩).flash ∧
    (data_parsing_mqtt decimal NvsOutcome.ok (State.boot decimal ⟨some 1, some 7⟩)
      "4 0 123 9".toList 9).data_mqtt = (State.boot decimal ⟨some 1, some 7⟩).data_mqtt ∧
    (decode_header decimal (State.boot decimal ⟨some 1, some 7⟩)
      "3 0 7".toList 5).robotat_id = 7 ∧
    (decode_header decimal
      (data_parsing_mqtt decimal NvsOutcome.ok (State.boot decimal ⟨some 1, some 7⟩)
        "4 0 123 9".toList 9)
      "3 0 7".toList 5).robotat_id = 211 := by
  decide

/-! ## The claim frame -/

/-- C15, the code at the failing input. The device restarts with the record
(1, 7) claimed by an earlier run, so `data_mqtt` is all zero. The frame
"5 0 7 1.0 2.0" is addressed to it: the test of line 120 holds, the claimed
id in memory is 7 and slots 1 and 2 receive 1 and 2, but only the claim step
assigns slot 0, which therefore still holds 0 and not 7. -/
theorem C15_slot0_after_restart :
    (State.boot decimal ⟨some 1, some 7⟩).data_mqtt
      = List.replicate MAX_DATA_LENGTH_MQTT (decimal.of_uint8 0) ∧
    addressed_cond (claim_step decimal NvsOutcome.ok (read_record NvsOutcome.ok
      (decode_header decimal (State.boot decimal ⟨some 1, some 7⟩)
        "5 0 7 1.0 2.0".toList 13))) = true ∧
    (data_parsing_mqtt decimal NvsOutcome.ok (State.boot decimal ⟨some 1, some 7⟩)
      "5 0 7 1.0 2.0".toList 13).chosen_robotat_id = 7 ∧
    (data_parsing_mqtt decimal NvsOutcome.ok (State.boot decimal ⟨some 1, some 7⟩)
      "5 0 7 1.0 2.0".toList 13).data_mqtt.take 3
      = [⟨false, 0, 0⟩, ⟨false, 1, 0⟩, ⟨false, 2, 0⟩] ∧
    (data_parsing_mqtt decimal NvsOutcome.ok (State.boot decimal ⟨some 1, some 7⟩)
      "5 0 7 1.0 2.0".toList 13).data_mqtt[0]? ≠ some (decimal.of_uint8 7) := by
  decide

section slot0

variable {F : Type} (ops : FloatOps F)

/-- Started on fresh storage with the storage calls succeeding, every parse
keeps `slot0_ok`, and a parse in which the test of line 120 holds ends with
slot 0 equal to the claimed id. The start with a record claimed by an earlier
run is not covered: there slot 0 stays 0 until a claim is made, and none is
made while the persisted flag is 1. -/
theorem slot0_ok_parse (s : State F) (mes_data : List Char) (mes_len : Nat)
    (h : slot0_ok ops s) :
    slot0_ok ops (data_parsing_mqtt ops NvsOutcome.ok s mes_data mes_len) ∧
    (addressed_cond (claim_step ops NvsOutcome.ok (read_record NvsOutcome.ok
        (decode_header ops s mes_data mes_len))) = true →
      (data_parsing_mqtt ops NvsOutcome.ok s mes_data mes_len).data_mqtt[0]?
        = some (ops.of_uint8
            (data_parsing_mqtt ops NvsOutcome.ok s mes_data mes_len).chosen_robotat_id)) := by
  obtain ⟨hlen, hcase⟩ := h
  have hfr := fill_step_frame ops (claim_step ops NvsOutcome.ok
    (read_record NvsOutcome.ok (decode_header ops s mes_data mes_len)))
  have hlt : (claim_step ops NvsOutcome.ok
      (read_record NvsOutcome.ok (decode_header ops s mes_data mes_len))).str_len < 256 := by
    simpa using decode_header_str_len_lt ops s mes_data mes_len
  have h0 : (data_parsing_mqtt ops NvsOutcome.ok s mes_data mes_len).data_mqtt[0]?
      = (claim_step ops NvsOutcome.ok
          (read_record NvsOutcome.ok (decode_header ops s mes_data mes_len))).data_mqtt[0]? := by
    unfold data_parsing_mqtt
    rw [fill_step_data_mqtt ops _ hlt 0, if_neg (by omega)]
  have hch : (data_parsing_mqtt ops NvsOutcome.ok s mes_data mes_len).chosen_robotat_id
      = (claim_step ops NvsOutcome.ok
          (read_record NvsOutcome.ok (decode_header ops s mes_data mes_len))).chosen_robotat_id :=
    hfr.2.2.2.2.2.1
  have hfl : (data_parsing_mqtt ops NvsOutcome.ok s mes_data mes_len).robotat_id_use_flag
      = (claim_step ops NvsOutcome.ok
          (read_record NvsOutcome.ok (decode_header ops s mes_data mes_len))).robotat_id_use_flag :=
    hfr.2.2.2.2.2.2.1
  have hl : (data_parsing_mqtt ops NvsOutcome.ok s mes_data mes_len).data_mqtt.length
      = MAX_DATA_LENGTH_MQTT := by
    have h1 : (data_parsing_mqtt ops NvsOutcome.ok s mes_data mes_len).data_mqtt.length
        = (claim_step ops NvsOutcome.ok
          (read_record NvsOutcome.ok (decode_header ops s mes_data mes_len))).data_mqtt.length :=
      hfr.2.2.2.2.2.2.2.2.2
    rw [h1, claim_step_data_mqtt]
    split <;> simpa using hlen
  rcases hcase with ⟨hfresh, hflag0⟩ | ⟨c, hrec, hslot⟩
  · have hflag : (read_record NvsOutcome.ok
        (decode_header ops s mes_data mes_len)).robotat_id_use_flag = 0 := by
      rw [read_record_flag_of_none _ _ (by simp [hfresh])]; simpa using hflag0
    by_cases huse : (decode_header ops s mes_data mes_len).robotat_id_use = 0
    · have hc : claim_cond (read_record NvsOutcome.ok
          (decode_header ops s mes_data mes_len)) = true := by
        simp [claim_cond, hflag, huse]
      have hs0 : (data_parsing_mqtt ops NvsOutcome.ok s mes_data mes_len).data_mqtt[0]?
          = some (ops.of_uint8 (decode_header ops s mes_data mes_len).robotat_id) := by
        rw [h0, claim_step_data_mqtt, hc]
        simp [hlen, MAX_DATA_LENGTH_MQTT]
      have hfl2 : (data_parsing_mqtt ops NvsOutcome.ok s mes_data mes_len).flash
          = ⟨some 1, some (decode_header ops s mes_data mes_len).robotat_id⟩ := by
        unfold data_parsing_mqtt
        rw [hfr.1, claim_step_flash_ok ops _ hc]
        simp
      refine ⟨⟨hl, Or.inr ⟨_, hfl2, hs0⟩⟩, ?_⟩
      intro _
      rw [hs0, hch, claim_step_chosen, hc]
      simp
    · have hc : claim_cond (read_record NvsOutcome.ok
          (decode_header ops s mes_data mes_len)) = false := by
        simp [claim_cond, huse]
      have ha : addressed_cond (claim_step ops NvsOutcome.ok (read_record NvsOutcome.ok
          (decode_header ops s mes_data mes_len))) = false := by
        rw [claim_step_of_false ops _ _ hc]
        simp [addressed_cond, hflag]
      refine ⟨⟨hl, Or.inl ⟨?_, ?_⟩⟩, ?_⟩
      · rw [parse_flash_of_no_claim ops _ s mes_data mes_len hc]; exact hfresh
      · rw [hfl, claim_step_of_false ops _ _ hc]; exact hflag
      · intro hx; rw [ha] at hx; exact absurd hx (by decide)
  · have hflag := read_record_flag_of_some NvsOutcome.ok
      (decode_header ops s mes_data mes_len) 1 rfl rfl (by simp [hrec])
    have hcho := read_record_chosen_of_some NvsOutcome.ok
      (decode_header ops s mes_data mes_len) c rfl rfl (by simp [hrec])
    have hc : claim_cond (read_record NvsOutcome.ok
        (decode_header ops s mes_data mes_len)) = false := by
      simp [claim_cond, hflag]
    have hs0 : (data_parsing_mqtt ops NvsOutcome.ok s mes_data mes_len).data_mqtt[0]?
        = some (ops.of_uint8 c) := by
      rw [h0, claim_step_of_false ops _ _ hc]
      simpa using hslot
    refine ⟨⟨hl, Or.inr ⟨c, ?_, hs0⟩⟩, ?_⟩
    · rw [parse_flash_of_no_claim ops _ s mes_data mes_len hc]; exact hrec
    · intro _
      rw [hs0, hch, claim_step_of_false ops _ _ hc, hcho]

/-- The power-up state on fresh storage satisfies `slot0_ok`. -/
theorem slot0_ok_boot : slot0_ok ops (State.boot ops ⟨none, none⟩) :=
  ⟨List.length_replicate _ _, Or.inl ⟨rfl, rfl⟩⟩

end slot0

/-! ## Storage read errors -/

/-- C16 as stated fails. After the claim of id 3 on fresh storage, a parse
of "4 0 9 1.5" whose `nvs_open` reports an error takes its decision on the
flag 1 and the id 3 left in memory, not on (0, 0): the claim step does not
run and nothing more is published, while the same frame parsed from the
power-up state, where the variables hold the defaults, does claim. -/
theorem C16_counterexample :
    (read_record ⟨false, true, true, true, true, true, true⟩
      (decode_header decimal
        (data_parsing_mqtt decimal NvsOutcome.ok (State.boot decimal ⟨none, none⟩)
          "3 0 3".toList 5)
        "4 0 9 1.5".toList 9)).robotat_id_use_flag = 1 ∧
    (read_record ⟨false, true, true, true, true, true, true⟩
      (decode_header decimal
        (data_parsing_mqtt decimal NvsOutcome.ok (State.boot decimal ⟨none, none⟩)
          "3 0 3".toList 5)
        "4 0 9 1.5".toList 9)).chosen_robotat_id = 3 ∧
    claim_cond (read_record ⟨false, true, true, true, true, true, true⟩
      (decode_header decimal
        (data_parsing_mqtt decimal NvsOutcome.ok (State.boot decimal ⟨none, none⟩)
          "3 0 3".toList 5)
        "4 0 9 1.5".toList 9)) = false ∧
    (data_parsing_mqtt decimal ⟨false, true, true, true, true, true, true⟩
      (data_parsing_mqtt decimal NvsOutcome.ok (State.boot decimal ⟨none, none⟩)
        "3 0 3".toList 5)
      "4 0 9 1.5".toList 9).published = [("Used_IDs", "3 ESP32_Drone")] ∧
    claim_cond (read_record ⟨false, true, true, true, true, true, true⟩
      (decode_header decimal (State.boot decimal ⟨none, none⟩) "4 0 9 1.5".toList 9))
      = true := by
  decide

/-- C16 amended: for every parse in which opening the storage namespace or
reading `id_use_flag` reports an error, the flag on which the decision of
line 104 is taken is the value the variable `robotat_id_use_flag` held in
memory before the parse (0 only if no earlier parse since power-up has set
it); likewise `chosen_robotat_id` keeps its value in memory when the
namespace cannot be opened or reading `chosen_mqtt_id` reports an error. -/
theorem C16_read_error_keeps_memory {F : Type} (ops : FloatOps F) (o : NvsOutcome)
    (s : State F) (mes_data : List Char) (mes_len : Nat)
    (herr : o.open_read = false ∨ o.get_flag = false) :
    (read_record o (decode_header ops s mes_data mes_len)).robotat_id_use_flag
      = s.robotat_id_use_flag ∧
    claim_cond (read_record o (decode_header ops s mes_data mes_len))
      = ((decode_header ops s mes_data mes_len).robotat_id_use == 0 &&
          s.robotat_id_use_flag == 0) ∧
    (o.open_read = false ∨ o.get_id = false →
      (read_record o (decode_header ops s mes_data mes_len)).chosen_robotat_id
        = s.chosen_robotat_id) := by
  have hf : (read_record o (decode_header ops s mes_data mes_len)).robotat_id_use_flag
      = s.robotat_id_use_flag := by
    have hb : (o.open_read && o.get_flag) = false := by
      rcases herr with h | h <;> simp [h]
    simp [read_record, nvs_get_u8, hb]
  refine ⟨hf, ?_, ?_⟩
  · simp [claim_cond, hf]
  · intro h
    have hb : (o.open_read && o.get_id) = false := by
      rcases h with h | h <;> simp [h]
    simp [read_record, nvs_get_u8, hb]

/-- Witness of `C16_read_error_keeps_memory`: the state after the claim of
id 3, then the frame "4 0 9 1.5" parsed while `nvs_open` fails. -/
theorem C16_read_error_keeps_memory_witness :
    (read_record ⟨false, true, true, true, true, true, true⟩
      (decode_header decimal
        (data_parsing_mqtt decimal NvsOutcome.ok (State.boot decimal ⟨none, none⟩)
          "3 0 3".toList 5)
        "4 0 9 1.5".toList 9)).robotat_id_use_flag
      = (data_parsing_mqtt decimal NvsOutcome.ok (State.boot decimal ⟨none, none⟩)
          "3 0 3".toList 5).robotat_id_use_flag ∧
    claim_cond (read_record ⟨false, true, true, true, true, true, true⟩
      (decode_header decimal
        (data_parsing_mqtt decimal NvsOutcome.ok (State.boot decimal ⟨none, none⟩)
          "3 0 3".toList 5)
        "4 0 9 1.5".toList 9))
      = ((decode_header decimal
          (data_parsing_mqtt decimal NvsOutcome.ok (State.boot decimal ⟨none, none⟩)
            "3 0 3".toList 5)
          "4 0 9 1.5".toList 9).robotat_id_use == 0 &&
        (data_parsing_mqtt decimal NvsOutcome.ok (State.boot decimal ⟨none, none⟩)
          "3 0 3".toList 5).robotat_id_use_flag == 0) ∧
    ((⟨false, true, true, true, true, true, true⟩ : NvsOutcome).open_read = false ∨
        (⟨false, true, true, true, true, true, true⟩ : NvsOutcome).get_id = false →
      (read_record ⟨false, true, true, true, true, true, true⟩
        (decode_header decimal
          (data_parsing_mqtt decimal NvsOutcome.ok (State.boot decimal ⟨none, none⟩)
            "3 0 3".toList 5)
          "4 0 9 1.5".toList 9)).chosen_robotat_id
        = (data_parsing_mqtt decimal NvsOutcome.ok (State.boot decimal ⟨none, none⟩)
            "3 0 3".toList 5).chosen_robotat_id) :=
  C16_read_error_keeps_memory decimal ⟨false, true, true, true, true, true, true⟩
    (data_parsing_mqtt decimal NvsOutcome.ok (State.boot decimal ⟨none, none⟩)
      "3 0 3".toList 5)
    "4 0 9 1.5".toList 9 (Or.inl rfl)

/-! ## Termination of the fill loop -/

section iterations

variable {F : Type} (ops : FloatOps F)

/-- While the loop test allows `k` more iterations, `k` runs of the body
raise `i` by `k` and keep `str_len`. -/
theorem fill_body_iterate_fields (k : Nat) (s : State F) (hn : s.str_len < 256)
    (hk : k ≤ fill_count s) :
    ((fill_body ops)^[k] s).i = s.i + k ∧ ((fill_body ops)^[k] s).str_len = s.str_len := by
  induction k with
  | zero => exact ⟨rfl, rfl⟩
  | succ k ih =>
    obtain ⟨h1, h2⟩ := ih (by omega)
    rw [Function.iterate_succ_apply']
    unfold fill_count at hk
    refine ⟨?_, ?_⟩
    · show (((fill_body ops)^[k] s).i + 1) % 256 = s.i + (k + 1)
      rw [h1, Nat.mod_eq_of_lt (by omega)]
      omega
    · show ((fill_body ops)^[k] s).str_len = s.str_len
      exact h2

/-- With enough fuel the loop is `fill_count` runs of its body. -/
theorem fill_loop_iterate (fuel : Nat) (s : State F) (hn : s.str_len < 256)
    (hf : fill_count s ≤ fuel) :
    fill_loop ops fuel s = (fill_body ops)^[fill_count s] s := by
  induction fuel generalizing s with
  | zero =>
    have h0 : fill_count s = 0 := by omega
    rw [h0]; rfl
  | succ n ih =>
    simp only [fill_loop]
    unfold fill_count at hf
    split
    · rename_i hc
      have hi : (fill_body ops s).i = s.i + 1 := by
        show (s.i + 1) % 256 = s.i + 1
        apply Nat.mod_eq_of_lt; omega
      have hs : (fill_body ops s).str_len = s.str_len := rfl
      have hk : fill_count s = fill_count (fill_body ops s) + 1 := by
        unfold fill_count; rw [hi, hs]; omega
      rw [ih (fill_body ops s) (by rw [hs]; exact hn) (by unfold fill_count; rw [hi, hs]; omega),
        hk, Function.iterate_succ_apply]
    · rename_i hc
      have h0 : fill_count s = 0 := by unfold fill_count; omega
      rw [h0]; rfl

end iterations

/-- Totality of the loop on the runs that stay inside `data_mqtt`: for every
declaredCount `d <= 57` held in `str_len`, the loop of lines 128-132, entered
with `i = 1`, is the body run exactly `d - 3` times (truncated subtraction),
with any fuel of at least that many units and in particular with the 256
units of `fill_step`; the loop test holds before each of these runs and
fails after the last, the indices assigned are 1 to d - 3 in order, no store
leaves the array, and for d <= 3 the loop changes nothing. -/
theorem fill_loop_total_in_bounds {F : Type} (ops : FloatOps F) (s : State F) (d : Nat)
    (hd : s.str_len = d) (hd57 : d ≤ 57) (fuel : Nat) (hfuel : d - 3 ≤ fuel) :
    fill_loop ops fuel { s with i := 1 } = (fill_body ops)^[d - 3] { s with i := 1 } ∧
    fill_step ops s
      = (if addressed_cond s then (fill_body ops)^[d - 3] { s with i := 1 } else s) ∧
    (∀ k, k < d - 3 →
      (((fill_body ops)^[k] { s with i := 1 }).i : Int)
        < (((fill_body ops)^[k] { s with i := 1 }).str_len : Int) - 2) ∧
    ¬ ((((fill_body ops)^[d - 3] { s with i := 1 }).i : Int)
        < (((fill_body ops)^[d - 3] { s with i := 1 }).str_len : Int) - 2) ∧
    (fill_loop ops fuel { s with i := 1 }).data_mqtt_writes
      = s.data_mqtt_writes ++ List.range' 1 (d - 3) ∧
    (fill_loop ops fuel { s with i := 1 }).out_of_bounds = s.out_of_bounds ∧
    (d ≤ 3 → fill_loop ops fuel { s with i := 1 } = { s with i := 1 }) := by
  have hn : ({ s with i := 1 } : State F).str_len < 256 := by
    show s.str_len < 256
    omega
  have hc : fill_count ({ s with i := 1 } : State F) = d - 3 := by
    show s.str_len - 2 - 1 = d - 3
    omega
  have hloop : ∀ fl, d - 3 ≤ fl →
      fill_loop ops fl { s with i := 1 } = (fill_body ops)^[d - 3] { s with i := 1 } := by
    intro fl hfl
    rw [fill_loop_iterate ops fl _ hn (by rw [hc]; exact hfl), hc]
  refine ⟨hloop fuel hfuel, ?_, ?_, ?_, ?_, ?_, ?_⟩
  · unfold fill_step
    rw [hloop 256 (by omega)]
  · intro k hk
    obtain ⟨h1, h2⟩ := fill_body_iterate_fields ops k _ hn (by rw [hc]; omega)
    rw [h1, h2]
    show ((1 + k : Nat) : Int) < (s.str_len : Int) - 2
    omega
  · obtain ⟨h1, h2⟩ := fill_body_iterate_fields ops (d - 3) _ hn (by rw [hc])
    rw [h1, h2]
    show ¬ (((1 + (d - 3) : Nat) : Int) < (s.str_len : Int) - 2)
    omega
  · rw [fill_loop_writes ops fuel _ hn (by rw [hc]; exact hfuel), hc]
  · rw [fill_loop_out_of_bounds ops fuel _ hn (by rw [hc]; exact hfuel)]
    have h0 : ¬ ((1 : Nat) + 2 < s.str_len ∧ MAX_DATA_LENGTH_MQTT + 3 ≤ s.str_len) := by
      unfold MAX_DATA_LENGTH_MQTT; omega
    show (s.out_of_bounds ||
      decide ((1 : Nat) + 2 < s.str_len ∧ MAX_DATA_LENGTH_MQTT + 3 ≤ s.str_len)) = _
    simp [h0]
  · intro h3
    have h0 : d - 3 = 0 := by omega
    rw [hloop fuel hfuel, h0]
    rfl

/-- C17, the code at the failing input. With the record (1, 7) the frame
"186 0 7" is addressed and holds declaredCount 186 <= 255. The loop test
allows the indices 1 to 183, and from index 55 on every store lands outside
the 55 slots of `data_mqtt`, in the objects that follow, where the loop's
own variables `i`, `str_len` and `data_ptr` may lie: neither the number of
iterations nor the return of the loop is secured from there on. -/
theorem C17_loop_leaves_the_array :
    (State.boot decimal ⟨some 1, some 7⟩).out_of_bounds = false ∧
    (decode_header decimal (State.boot decimal ⟨some 1, some 7⟩) "186 0 7".toList 7).str_len
      = 186 ∧
    addressed_cond (claim_step decimal NvsOutcome.ok (read_record NvsOutcome.ok
      (decode_header decimal (State.boot decimal ⟨some 1, some 7⟩) "186 0 7".toList 7)))
      = true ∧
    (data_parsing_mqtt decimal NvsOutcome.ok (State.boot decimal ⟨some 1, some 7⟩)
      "186 0 7".toList 7).data_mqtt_writes = List.range' 1 183 ∧
    ¬ (55 < MAX_DATA_LENGTH_MQTT) ∧
    (data_parsing_mqtt decimal NvsOutcome.ok (State.boot decimal ⟨some 1, some 7⟩)
      "186 0 7".toList 7).out_of_bounds = true := by
  have hd : (decode_header decimal (State.boot decimal ⟨some 1, some 7⟩)
      "186 0 7".toList 7).str_len = 186 := by decide
  have ha : addressed_cond (claim_step decimal NvsOutcome.ok (read_record NvsOutcome.ok
      (decode_header decimal (State.boot decimal ⟨some 1, some 7⟩) "186 0 7".toList 7)))
      = true := by decide
  have hc : claim_cond (read_record NvsOutcome.ok
      (decode_header decimal (State.boot decimal ⟨some 1, some 7⟩) "186 0 7".toList 7))
      = false := by decide
  refine ⟨rfl, hd, ha, ?_, by decide, ?_⟩
  · rw [parse_writes_of_addressed decimal NvsOutcome.ok _ _ _ ha, hc, hd]
    rfl
  · rw [parse_out_of_bounds, ha, hd]
    rfl

/-! ## Size of the announcement -/

/-- The decimal text of an 8-bit value has at most three characters. -/
theorem repr_length_le_three : ∀ n, n < 256 → (Nat.repr n).length ≤ 3 := by
  intro n hn
  interval_cases n <;> decide

theorem write_record_mes_ok_id {F : Type} (o : NvsOutcome) (s : State F) :
    (write_record o s).mes_ok_id = s.mes_ok_id := by
  unfold write_record
  cases (o.open_write && o.commit) <;> rfl

theorem claim_step_mes_ok_id {F : Type} (ops : FloatOps F) (o : NvsOutcome) (s : State F) :
    (claim_step ops o s).mes_ok_id
      = if claim_cond s then s.mes_ok_id ++ " " ++ MQTT_IDENTIFIER else s.mes_ok_id := by
  unfold claim_step
  split
  · exact write_record_mes_ok_id o _
  · rfl

/-- C19: for every frame and every storage outcome, the text built in
`mes_ok_id` by lines 97-108 is, after line 97, the decimal text of the 8-bit
candidate id and, when the claim step ends (before the fill loop), that text
followed on a claim by one space and "ESP32_Drone"; it has at most
3 + 1 + 11 = 15 characters, so with its terminator it fits the 50 bytes of
MAX_STRING_LENGTH_OK_MESSAGE, and every text the parse hands to the publish
call has at most 15 characters. -/
theorem C19_announcement_fits {F : Type} (ops : FloatOps F) (o : NvsOutcome) (s : State F)
    (mes_data : List Char) (mes_len : Nat) :
    (decode_header ops s mes_data mes_len).mes_ok_id
      = Nat.repr (decode_header ops s mes_data mes_len).robotat_id ∧
    (claim_step ops o (read_record o (decode_header ops s mes_data mes_len))).mes_ok_id
      = (if claim_cond (read_record o (decode_header ops s mes_data mes_len)) then
          Nat.repr (decode_header ops s mes_data mes_len).robotat_id ++ " " ++ "ESP32_Drone"
        else Nat.repr (decode_header ops s mes_data mes_len).robotat_id) ∧
    (claim_step ops o
      (read_record o (decode_header ops s mes_data mes_len))).mes_ok_id.length ≤ 15 ∧
    (claim_step ops o
      (read_record o (decode_header ops s mes_data mes_len))).mes_ok_id.length + 1
      ≤ MAX_STRING_LENGTH_OK_MESSAGE ∧
    (∀ m ∈ (data_parsing_mqtt ops o s mes_data mes_len).published.drop s.published.length,
      m.2.length ≤ 15) := by
  have hm : (claim_step ops o (read_record o (decode_header ops s mes_data mes_len))).mes_ok_id
      = (if claim_cond (read_record o (decode_header ops s mes_data mes_len)) then
          Nat.repr (decode_header ops s mes_data mes_len).robotat_id ++ " " ++ "ESP32_Drone"
        else Nat.repr (decode_header ops s mes_data mes_len).robotat_id) := by
    rw [claim_step_mes_ok_id]
    rfl
  have h3 := repr_length_le_three _ (decode_header_robotat_id_lt ops s mes_data mes_len)
  have h1 : " ".length = 1 := rfl
  have h11 : "ESP32_Drone".length = 11 := rfl
  have hl : (claim_step ops o
      (read_record o (decode_header ops s mes_data mes_len))).mes_ok_id.length ≤ 15 := by
    rw [hm]
    split
    · rw [String.length_append, String.length_append]
      omega
    · omega
  refine ⟨rfl, hm, hl, ?_, ?_⟩
  · unfold MAX_STRING_LENGTH_OK_MESSAGE
    omega
  · intro m hmem
    rw [parse_published, List.drop_left] at hmem
    split at hmem
    · rw [List.mem_singleton] at hmem
      rw [hmem]
      show (Nat.repr (decode_header ops s mes_data mes_len).robotat_id ++ " "
        ++ MQTT_IDENTIFIER).length ≤ 15
      rw [String.length_append, String.length_append]
      have h11b : MQTT_IDENTIFIER.length = 11 := rfl
      omega
    · simp at hmem

/-! ## Header fields and the rounding of `float` -/

section header_text

theorem NUL_not_digit : is_digit NUL = false := by decide

end header_text

end Robotat
